import Mathlib

/-!
# libion_ti: the ION client library (src/libion_ti/ion.c)

A shallow embedding of the nine public entry points of `ion.c` and of the
static helpers `IS_ERR_OR_NULL` and `ion_ioctl`.

Modelling conventions.

* C `int` and `off_t` values are `Int`; `size_t`, `unsigned int`,
  `unsigned long`, `unsigned char` and pointer values are `Nat` (a pointer is
  its unsigned address, `NULL` is `0`).  The only arithmetic the file performs
  is the unary minus of `-errno` and `-EINVAL` and the constant
  `(unsigned long)-4095`; the latter is reduced modulo `2 ^ ptrBits`.
* The operating system is an oracle `Kernel`.  Every system call receives the
  whole client state, which carries the trace of everything that happened
  before, so the answers of the oracle may depend on the complete history.
* `errno` is a cell of the state.  A system call overwrites it with whatever
  the oracle answers.  The logging call `ALOGE` is external as well: `ion.c`
  reads `errno` after it without having saved it, so the value `errno` holds
  after a diagnostic (the evaluation of its arguments, `strerror` included)
  is also an answer of the oracle.
* The out-parameters (`*handle`, `*stride`, `*ptr`, `*map_fd`, `*share_fd`)
  are distinct cells of the state; each store is also recorded in the trace.
* `ion.h` and `omap_ion.h` are not part of the sources: the request records
  carry the fields `ion.c` names, the opcodes are an enumeration, and
  `PAGE_SIZE` and `OMAP_ION_TILER_ALLOC` are parameters of the platform.
-/

namespace Ion

/-! ## Platform and record layouts -/

/-- Constants supplied by the headers and by the target: the width in bits of
`unsigned long` (which is also the pointer width), `PAGE_SIZE`, and the value
of the custom sub-command `OMAP_ION_TILER_ALLOC`. -/
structure Platform where
  ptrBits : Nat
  PAGE_SIZE : Nat
  OMAP_ION_TILER_ALLOC : Nat
  deriving DecidableEq, Repr

/-- The value of `EINVAL` in the Linux `errno.h`. -/
def EINVAL : Int := 22

/-- The value of `O_RDWR` in the Linux `fcntl.h`. -/
def O_RDWR : Int := 2

/-- The null pointer. -/
def NULL : Nat := 0

/-- The pointer `MAP_FAILED`, that is `(void *) -1`. -/
def MAP_FAILED (P : Platform) : Nat := 2 ^ P.ptrBits - 1

/-- The request codes `ion.c` passes to `ioctl`. -/
inductive Req
  | ION_IOC_ALLOC
  | ION_IOC_FREE
  | ION_IOC_MAP
  | ION_IOC_SHARE
  | ION_IOC_IMPORT
  | ION_IOC_CUSTOM
  deriving DecidableEq, Repr

/-- Fields of `struct ion_allocation_data` used by `ion_alloc`. -/
structure ion_allocation_data where
  len : Nat
  align : Nat
  flags : Nat
  handle : Nat
  deriving DecidableEq, Repr

/-- Fields of `struct ion_handle_data` used by `ion_free`. -/
structure ion_handle_data where
  handle : Nat
  deriving DecidableEq, Repr

/-- Fields of `struct ion_fd_data` used by the map, share and import calls. -/
structure ion_fd_data where
  handle : Nat
  fd : Int
  cacheable : Nat
  deriving DecidableEq, Repr

/-- Fields of `struct omap_ion_tiler_alloc_data` used by `ion_alloc_tiler`. -/
structure omap_ion_tiler_alloc_data where
  w : Nat
  h : Nat
  fmt : Int
  flags : Nat
  handle : Nat
  stride : Nat
  out_align : Nat
  token : Nat
  deriving DecidableEq, Repr

/-- The record `struct ion_custom_data`: a sub-command and the address of its
payload.  The address is modelled by the payload it points to, which the
subsystem may update in place. -/
structure ion_custom_data where
  cmd : Nat
  arg : omap_ion_tiler_alloc_data
  deriving DecidableEq, Repr

/-- The type of the in/out buffer that goes with each request code. -/
@[reducible] def Req.Buf : Req → Type
  | .ION_IOC_ALLOC => ion_allocation_data
  | .ION_IOC_FREE => ion_handle_data
  | .ION_IOC_MAP => ion_fd_data
  | .ION_IOC_SHARE => ion_fd_data
  | .ION_IOC_IMPORT => ion_fd_data
  | .ION_IOC_CUSTOM => ion_custom_data

/-! ## Client state, trace and the system-call oracle -/

/-- The diagnostics `ion.c` emits through `ALOGE`, with the values they print.
The last two are printed by `ion_map` with its function name in front and by
`ion_map_cacheable` and `ion_share` without: `func` is that name, if any. -/
inductive LogMsg
  | open_failed
  | open_fd (fd : Int)
  | ioctl_failed (req : Req) (ret : Int) (errno : Int) (fd : Int)
  | negative_fd (func : Option String)
  | mmap_failed (func : Option String) (errno : Int)
  deriving DecidableEq, Repr

/-- Observable actions of the library, in program order. -/
inductive Event
  | sys_open (path : String) (flags : Int)
  | sys_close (fd : Int)
  | sys_ioctl (fd : Int) (req : Req) (arg : req.Buf)
  | sys_mmap (addr : Nat) (length : Nat) (prot : Int) (flags : Int) (fd : Int) (offset : Int)
  | log (m : LogMsg)
  | store_handle (v : Nat)
  | store_stride (v : Nat)
  | store_ptr (v : Nat)
  | store_map_fd (v : Int)
  | store_share_fd (v : Int)

/-- Is the event a store through one of the out-parameters? -/
def Event.isStore : Event → Bool
  | .store_handle _ => true
  | .store_stride _ => true
  | .store_ptr _ => true
  | .store_map_fd _ => true
  | .store_share_fd _ => true
  | _ => false

/-- Is the event a call of `mmap`? -/
def Event.isMmap : Event → Bool
  | .sys_mmap _ _ _ _ _ _ => true
  | _ => false

/-- Is the event a call of `ioctl`? -/
def Event.isIoctl : Event → Bool
  | .sys_ioctl _ _ _ => true
  | _ => false

/-- The memory the library reads and writes: `errno`, the cells behind the
out-parameters, and the trace of actions so far. -/
structure State where
  errno : Int
  handle : Nat
  stride : Nat
  ptr : Nat
  map_fd : Int
  share_fd : Int
  trace : List Event

/-- Answer of `open` and `close`: the returned status and the new `errno`. -/
structure SysRet where
  ret : Int
  errno : Int
  deriving DecidableEq, Repr

/-- Answer of `ioctl`: the returned status, the new `errno` and the contents
of the in/out buffer after the call. -/
structure IoctlRet (req : Req) where
  ret : Int
  errno : Int
  arg : req.Buf

/-- Answer of `mmap`: the returned pointer and the new `errno`. -/
structure MmapRet where
  ptr : Nat
  errno : Int
  deriving DecidableEq, Repr

/-- The operating system and the logging library as seen by `ion.c`.
`log_errno s m` is the value of `errno` after the diagnostic `m` was emitted
in state `s`. -/
structure Kernel where
  sys_open : State → String → Int → SysRet
  sys_close : State → Int → SysRet
  sys_ioctl : State → Int → (req : Req) → req.Buf → IoctlRet req
  sys_mmap : State → Nat → Nat → Int → Int → Int → Int → MmapRet
  log_errno : State → LogMsg → Int

/-- Append one event to the trace. -/
def State.emit (s : State) (e : Event) : State :=
  { s with trace := s.trace ++ [e] }

/-- The logging call `ALOGE`: the diagnostic is recorded and `errno` becomes
what the logging library leaves in it. -/
def ALOGE (K : Kernel) (s : State) (m : LogMsg) : State :=
  { s.emit (.log m) with errno := K.log_errno s m }

/-- The store `*handle = v`. -/
def State.set_handle (s : State) (v : Nat) : State :=
  { s with handle := v, trace := s.trace ++ [.store_handle v] }

/-- The store `*stride = v`. -/
def State.set_stride (s : State) (v : Nat) : State :=
  { s with stride := v, trace := s.trace ++ [.store_stride v] }

/-- The store `*ptr = v`. -/
def State.set_ptr (s : State) (v : Nat) : State :=
  { s with ptr := v, trace := s.trace ++ [.store_ptr v] }

/-- The store `*map_fd = v`. -/
def State.set_map_fd (s : State) (v : Int) : State :=
  { s with map_fd := v, trace := s.trace ++ [.store_map_fd v] }

/-- The store `*share_fd = v`. -/
def State.set_share_fd (s : State) (v : Int) : State :=
  { s with share_fd := v, trace := s.trace ++ [.store_share_fd v] }

/-- Value returned by an entry point together with the state it leaves. -/
structure Outcome where
  ret : Int
  st : State

/-- Result of the dispatcher: status, buffer after the call, state. -/
structure Dispatch (req : Req) where
  ret : Int
  arg : req.Buf
  st : State

/-! ## The functions of `ion.c` -/

/-- The constant `(unsigned long)-4095`. -/
def errPtrBase (P : Platform) : Nat :=
  (2 ^ P.ptrBits - 4095 % 2 ^ P.ptrBits) % 2 ^ P.ptrBits

/-- `IS_ERR_OR_NULL`: `!ptr || ptr >= (unsigned long)-4095`. -/
def IS_ERR_OR_NULL (P : Platform) (ptr : Nat) : Bool :=
  ptr == NULL || decide (errPtrBase P ≤ ptr)

/-- `ion_open`: open `/dev/ion` read-write, log, return the descriptor. -/
def ion_open (K : Kernel) (s : State) : Outcome :=
  let r := K.sys_open s "/dev/ion" O_RDWR
  let s1 := { s.emit (.sys_open "/dev/ion" O_RDWR) with errno := r.errno }
  let fd := r.ret
  if fd < 0 then
    { ret := fd, st := ALOGE K s1 .open_failed }
  else
    { ret := fd, st := ALOGE K s1 (.open_fd fd) }

/-- `ion_close`: return what `close` returns. -/
def ion_close (K : Kernel) (s : State) (fd : Int) : Outcome :=
  let r := K.sys_close s fd
  { ret := r.ret, st := { s.emit (.sys_close fd) with errno := r.errno } }

/-- `ion_ioctl`: one `ioctl`; a negative status is logged and replaced by
`-errno`. -/
def ion_ioctl (K : Kernel) (s : State) (fd : Int) (req : Req) (arg : req.Buf) :
    Dispatch req :=
  let r := K.sys_ioctl s fd req arg
  let s1 := { s.emit (.sys_ioctl fd req arg) with errno := r.errno }
  let ret := r.ret
  if ret < 0 then
    let s2 := ALOGE K s1 (.ioctl_failed req ret s1.errno fd)
    { ret := -s2.errno, arg := r.arg, st := s2 }
  else
    { ret := ret, arg := r.arg, st := s1 }

/-- `ion_alloc`. -/
def ion_alloc (P : Platform) (K : Kernel) (s : State) (fd : Int)
    (len align flags : Nat) : Outcome :=
  let data : ion_allocation_data :=
    { len := len, align := align, flags := flags, handle := 0 }
  let d := ion_ioctl K s fd .ION_IOC_ALLOC data
  let ret := d.ret
  if ret < 0 then
    { ret := ret, st := d.st }
  else if IS_ERR_OR_NULL P d.arg.handle then
    { ret := -EINVAL, st := d.st }
  else
    { ret := ret, st := d.st.set_handle d.arg.handle }

/-- `ion_alloc_tiler`. -/
def ion_alloc_tiler (P : Platform) (K : Kernel) (s : State) (fd : Int)
    (w h : Nat) (fmt : Int) (flags : Nat) : Outcome :=
  let alloc_data : omap_ion_tiler_alloc_data :=
    { w := w, h := h, fmt := fmt, flags := flags, handle := 0, stride := 0,
      out_align := P.PAGE_SIZE, token := 0 }
  let custom_data : ion_custom_data :=
    { cmd := P.OMAP_ION_TILER_ALLOC, arg := alloc_data }
  let d := ion_ioctl K s fd .ION_IOC_CUSTOM custom_data
  let ret := d.ret
  if ret < 0 then
    { ret := ret, st := d.st }
  else
    { ret := ret, st := (d.st.set_stride d.arg.arg.stride).set_handle d.arg.arg.handle }

/-- `ion_free`. -/
def ion_free (K : Kernel) (s : State) (fd : Int) (handle : Nat) : Outcome :=
  let data : ion_handle_data := { handle := handle }
  let d := ion_ioctl K s fd .ION_IOC_FREE data
  { ret := d.ret, st := d.st }

/-- `ion_map`. -/
def ion_map (P : Platform) (K : Kernel) (s : State) (fd : Int) (handle : Nat)
    (length : Nat) (prot flags : Int) (offset : Int) : Outcome :=
  let data : ion_fd_data := { handle := handle, fd := 0, cacheable := 0 }
  let d := ion_ioctl K s fd .ION_IOC_MAP data
  let ret := d.ret
  if ret < 0 then
    { ret := ret, st := d.st }
  else
    let s1 := d.st.set_map_fd d.arg.fd
    if s1.map_fd < 0 then
      { ret := -EINVAL, st := ALOGE K s1 (.negative_fd (some "ion_map")) }
    else
      let m := K.sys_mmap s1 NULL length prot flags s1.map_fd offset
      let s2 := { s1.emit (.sys_mmap NULL length prot flags s1.map_fd offset) with
                  errno := m.errno }
      let s3 := s2.set_ptr m.ptr
      if s3.ptr = MAP_FAILED P then
        let s4 := ALOGE K s3 (.mmap_failed (some "ion_map") s3.errno)
        { ret := -s4.errno, st := s4 }
      else
        { ret := ret, st := s3 }

/-- `ion_share`. -/
def ion_share (K : Kernel) (s : State) (fd : Int) (handle : Nat) : Outcome :=
  let data : ion_fd_data := { handle := handle, fd := 0, cacheable := 0 }
  let d := ion_ioctl K s fd .ION_IOC_SHARE data
  let ret := d.ret
  if ret < 0 then
    { ret := ret, st := d.st }
  else
    let s1 := d.st.set_share_fd d.arg.fd
    if s1.share_fd < 0 then
      { ret := -EINVAL, st := ALOGE K s1 (.negative_fd none) }
    else
      { ret := ret, st := s1 }

/-- `ion_import`. -/
def ion_import (K : Kernel) (s : State) (fd : Int) (share_fd : Int) : Outcome :=
  let data : ion_fd_data := { handle := 0, fd := share_fd, cacheable := 0 }
  let d := ion_ioctl K s fd .ION_IOC_IMPORT data
  let ret := d.ret
  if ret < 0 then
    { ret := ret, st := d.st }
  else
    { ret := ret, st := d.st.set_handle d.arg.handle }

/-- `ion_map_cacheable`. -/
def ion_map_cacheable (P : Platform) (K : Kernel) (s : State) (fd : Int) (handle : Nat)
    (length : Nat) (prot flags : Int) (offset : Int) : Outcome :=
  let data : ion_fd_data := { handle := handle, fd := 0, cacheable := 1 }
  let d := ion_ioctl K s fd .ION_IOC_MAP data
  let ret := d.ret
  if ret < 0 then
    { ret := ret, st := d.st }
  else
    let s1 := d.st.set_map_fd d.arg.fd
    if s1.map_fd < 0 then
      { ret := -EINVAL, st := ALOGE K s1 (.negative_fd none) }
    else
      let m := K.sys_mmap s1 NULL length prot flags s1.map_fd offset
      let s2 := { s1.emit (.sys_mmap NULL length prot flags s1.map_fd offset) with
                  errno := m.errno }
      let s3 := s2.set_ptr m.ptr
      if s3.ptr = MAP_FAILED P then
        let s4 := ALOGE K s3 (.mmap_failed none s3.errno)
        { ret := -s4.errno, st := s4 }
      else
        { ret := ret, st := s3 }

/-! ## Auxiliary definitions used to state the properties -/

/-- The events a call appended to the trace of the state `s0` it started from. -/
def State.since (s0 s : State) : List Event :=
  s.trace.drop s0.trace.length

/-- The call that led from `s` to `t` left every out-parameter cell as it was,
performed no store through an out-parameter and did not call `mmap`. -/
def Untouched (s t : State) : Prop :=
  t.handle = s.handle ∧ t.stride = s.stride ∧ t.ptr = s.ptr ∧
  t.map_fd = s.map_fd ∧ t.share_fd = s.share_fd ∧
  (∃ evs, t.trace = s.trace ++ evs ∧ ∀ e ∈ evs, e.isStore = false ∧ e.isMmap = false)

/-- The outcome `r` of a call started in `s` passes the code of its dispatch
`d` through: it returns that code, it ends in the state the dispatcher left,
and between `s` and that state no out-parameter was written and `mmap` was
not called. -/
def PassedThrough (s : State) {req : Req} (d : Dispatch req) (r : Outcome) : Prop :=
  r.ret = d.ret ∧ r.st = d.st ∧ Untouched s r.st

/-- The status `r.ret`, when it is negative, is the negated value of `errno`
as the call left it, or it is `-EINVAL`. -/
def NegatedErrnoOrEINVAL (r : Outcome) : Prop :=
  r.ret < 0 → (r.ret = -r.st.errno ∨ r.ret = -EINVAL)

/-- The state right after `ioctl`, called in state `s`, answered `r`. -/
def dispatched (s : State) (fd : Int) (req : Req) (arg : req.Buf) (r : IoctlRet req) :
    State :=
  { s.emit (.sys_ioctl fd req arg) with errno := r.errno }

/-- The call of `ALOGE` in state `t` with diagnostic `m` leaves `errno` as it
found it. -/
def LogKeepsErrno (K : Kernel) (t : State) (m : LogMsg) : Prop :=
  K.log_errno t m = t.errno

/-- The state right after the call of `mmap` issued in state `s1` answered
`m` and the answer was stored in `*ptr`. -/
def mapped (s1 : State) (length : Nat) (prot flags fd offset : Int) (m : MmapRet) : State :=
  ({ s1.emit (.sys_mmap NULL length prot flags fd offset) with errno := m.errno }).set_ptr m.ptr

/-- A scripted subsystem for concrete checks.  Every `ioctl`, `open` and
`close` answers status `ret` and sets `errno` to `errno`; an `ioctl` fills the
output fields of its buffer with `handle`, `fd` and `stride w`; `mmap` answers
`mptr` and sets `errno` to `merrno`; a diagnostic leaves `errno` as it was
when `logErrno` is `none` and sets it to `e` when `logErrno` is `some e`. -/
structure Script where
  ret : Int
  errno : Int
  handle : Nat
  fd : Int
  stride : Nat → Nat
  mptr : Nat
  merrno : Int
  logErrno : Option Int

/-- The oracle that plays a script. -/
def Script.kernel (c : Script) : Kernel where
  sys_open := fun _ _ _ => { ret := c.ret, errno := c.errno }
  sys_close := fun _ _ => { ret := c.ret, errno := c.errno }
  sys_ioctl := fun _ _ req =>
    match req with
    | .ION_IOC_ALLOC => fun a =>
        { ret := c.ret, errno := c.errno, arg := { a with handle := c.handle } }
    | .ION_IOC_FREE => fun a => { ret := c.ret, errno := c.errno, arg := a }
    | .ION_IOC_MAP => fun a =>
        { ret := c.ret, errno := c.errno, arg := { a with fd := c.fd } }
    | .ION_IOC_SHARE => fun a =>
        { ret := c.ret, errno := c.errno, arg := { a with fd := c.fd } }
    | .ION_IOC_IMPORT => fun a =>
        { ret := c.ret, errno := c.errno, arg := { a with handle := c.handle } }
    | .ION_IOC_CUSTOM => fun a =>
        { ret := c.ret, errno := c.errno,
          arg := { a with arg := { a.arg with handle := c.handle,
                                              stride := c.stride a.arg.w } } }
  sys_mmap := fun _ _ _ _ _ _ _ => { ptr := c.mptr, errno := c.merrno }
  log_errno := fun s _ =>
    match c.logErrno with
    | none => s.errno
    | some e => e

/-- A 32-bit platform with 4 KiB pages. -/
def arm32 : Platform := { ptrBits := 32, PAGE_SIZE := 4096, OMAP_ION_TILER_ALLOC := 0 }

/-- A fresh client state. -/
def st0 : State :=
  { errno := 0, handle := 0, stride := 0, ptr := 0, map_fd := 0, share_fd := 0, trace := [] }

/-- A subsystem on which everything succeeds: handle `0x1000`, descriptor `7`,
stride the width rounded up to 4096, mapping at `0x40000000`; diagnostics
leave `errno` alone. -/
def okScript : Script :=
  { ret := 0, errno := 0, handle := 4096, fd := 7,
    stride := fun w => (w + 4095) / 4096 * 4096, mptr := 1073741824, merrno := 0,
    logErrno := none }

/-- A subsystem on which every call fails with `EACCES` (13). -/
def denyScript : Script :=
  { okScript with ret := -1, errno := 13 }

/-- A subsystem that reports success but answers the error pointer
`2^32 - 4095` as handle. -/
def errPtrScript : Script :=
  { okScript with handle := 4294963201 }

/-- A subsystem that reports success but answers the descriptor `-1`. -/
def negFdScript : Script :=
  { okScript with fd := -1 }

/-- A subsystem on which `ioctl` succeeds and `mmap` fails with `ENOMEM` (12),
answering `MAP_FAILED` of the 32-bit platform. -/
def mmapFailScript : Script :=
  { okScript with mptr := 4294967295, merrno := 12 }

/-- A subsystem that reports success but answers the null handle. -/
def nullScript : Script :=
  { okScript with handle := 0 }

/-- A subsystem on which every call fails with `EACCES` (13) and every
diagnostic leaves `EIO` (5) in `errno`. -/
def denyClobberScript : Script :=
  { denyScript with logErrno := some 5 }

/-- A subsystem on which `ioctl` succeeds, `mmap` fails with `ENOMEM` (12) and
every diagnostic leaves `EIO` (5) in `errno`. -/
def mmapFailClobberScript : Script :=
  { mmapFailScript with logErrno := some 5 }

/-! # Properties -/

/-! ## Facts about the dispatcher shared by the properties below -/

theorem since_append (s t : State) (evs : List Event) (h : t.trace = s.trace ++ evs) :
    s.since t = evs := by
  simp [State.since, h]

theorem ion_ioctl_arg (K : Kernel) (s : State) (fd : Int) (req : Req) (arg : req.Buf) :
    (ion_ioctl K s fd req arg).arg = (K.sys_ioctl s fd req arg).arg := by
  unfold ion_ioctl
  simp only []
  split <;> rfl

theorem ion_ioctl_neg (K : Kernel) (s : State) (fd : Int) (req : Req) (arg : req.Buf)
    (h : (K.sys_ioctl s fd req arg).ret < 0) :
    (ion_ioctl K s fd req arg).ret
      = -(K.log_errno (dispatched s fd req arg (K.sys_ioctl s fd req arg))
          (.ioctl_failed req (K.sys_ioctl s fd req arg).ret
            (K.sys_ioctl s fd req arg).errno fd)) ∧
    (ion_ioctl K s fd req arg).st.errno
      = K.log_errno (dispatched s fd req arg (K.sys_ioctl s fd req arg))
          (.ioctl_failed req (K.sys_ioctl s fd req arg).ret
            (K.sys_ioctl s fd req arg).errno fd) := by
  unfold ion_ioctl
  simp only []
  rw [if_pos h]
  exact ⟨rfl, rfl⟩

theorem ion_ioctl_nonneg (K : Kernel) (s : State) (fd : Int) (req : Req) (arg : req.Buf)
    (h : 0 ≤ (K.sys_ioctl s fd req arg).ret) :
    (ion_ioctl K s fd req arg).ret = (K.sys_ioctl s fd req arg).ret := by
  unfold ion_ioctl
  simp only []
  rw [if_neg (not_lt.mpr h)]

theorem ion_ioctl_ret_neg_errno (K : Kernel) (s : State) (fd : Int) (req : Req)
    (arg : req.Buf) (h : (ion_ioctl K s fd req arg).ret < 0) :
    (ion_ioctl K s fd req arg).ret = -(ion_ioctl K s fd req arg).st.errno := by
  by_cases hk : (K.sys_ioctl s fd req arg).ret < 0
  · obtain ⟨h1, h2⟩ := ion_ioctl_neg K s fd req arg hk
    rw [h1, h2]
  · have h0 := ion_ioctl_nonneg K s fd req arg (not_lt.mp hk)
    omega

theorem ion_ioctl_trace (K : Kernel) (s : State) (fd : Int) (req : Req) (arg : req.Buf) :
    ∃ evs, (ion_ioctl K s fd req arg).st.trace
        = s.trace ++ (Event.sys_ioctl fd req arg :: evs) ∧
      ∀ e ∈ evs, e.isStore = false ∧ e.isMmap = false ∧ e.isIoctl = false := by
  unfold ion_ioctl
  simp only []
  split
  · refine ⟨[Event.log (.ioctl_failed req (K.sys_ioctl s fd req arg).ret
        (K.sys_ioctl s fd req arg).errno fd)], ?_, ?_⟩
    · simp [ALOGE, State.emit]
    · intro e he
      simp at he
      subst he
      simp [Event.isStore, Event.isMmap, Event.isIoctl]
  · exact ⟨[], by simp [State.emit], by simp⟩

theorem ion_ioctl_cells (K : Kernel) (s : State) (fd : Int) (req : Req) (arg : req.Buf) :
    (ion_ioctl K s fd req arg).st.handle = s.handle ∧
    (ion_ioctl K s fd req arg).st.stride = s.stride ∧
    (ion_ioctl K s fd req arg).st.ptr = s.ptr ∧
    (ion_ioctl K s fd req arg).st.map_fd = s.map_fd ∧
    (ion_ioctl K s fd req arg).st.share_fd = s.share_fd := by
  unfold ion_ioctl
  simp only []
  split <;> simp [ALOGE, State.emit]

theorem ion_ioctl_untouched (K : Kernel) (s : State) (fd : Int) (req : Req)
    (arg : req.Buf) : Untouched s (ion_ioctl K s fd req arg).st := by
  obtain ⟨h1, h2, h3, h4, h5⟩ := ion_ioctl_cells K s fd req arg
  obtain ⟨evs, ht, hev⟩ := ion_ioctl_trace K s fd req arg
  refine ⟨h1, h2, h3, h4, h5, _, ht, ?_⟩
  intro e he
  rcases List.mem_cons.mp he with rfl | he
  · simp [Event.isStore, Event.isMmap]
  · exact ⟨(hev e he).1, (hev e he).2.1⟩

theorem ion_ioctl_since (K : Kernel) (s : State) (fd : Int) (req : Req) (arg : req.Buf)
    (t : State) (b : List Event)
    (ht : t.trace = (ion_ioctl K s fd req arg).st.trace ++ b) :
    (s.since t).filter Event.isStore = b.filter Event.isStore ∧
    (s.since t).filter Event.isMmap = b.filter Event.isMmap ∧
    (s.since t).filter Event.isIoctl
      = Event.sys_ioctl fd req arg :: b.filter Event.isIoctl := by
  obtain ⟨evs, hd, hev⟩ := ion_ioctl_trace K s fd req arg
  have htr : t.trace = s.trace ++ (Event.sys_ioctl fd req arg :: evs ++ b) := by
    rw [ht, hd]
    simp
  rw [since_append s t _ htr]
  have h1 : evs.filter Event.isStore = [] := by
    rw [List.filter_eq_nil_iff]
    intro e he
    simp [(hev e he).1]
  have h2 : evs.filter Event.isMmap = [] := by
    rw [List.filter_eq_nil_iff]
    intro e he
    simp [(hev e he).2.1]
  have h3 : evs.filter Event.isIoctl = [] := by
    rw [List.filter_eq_nil_iff]
    intro e he
    simp [(hev e he).2.2]
  simp [List.filter_cons, List.filter_append, Event.isStore, Event.isMmap, Event.isIoctl,
    h1, h2, h3]

@[simp] theorem trace_set_handle (s : State) (v : Nat) :
    (s.set_handle v).trace = s.trace ++ [Event.store_handle v] := rfl

@[simp] theorem trace_set_stride (s : State) (v : Nat) :
    (s.set_stride v).trace = s.trace ++ [Event.store_stride v] := rfl

@[simp] theorem trace_set_ptr (s : State) (v : Nat) :
    (s.set_ptr v).trace = s.trace ++ [Event.store_ptr v] := rfl

@[simp] theorem trace_set_map_fd (s : State) (v : Int) :
    (s.set_map_fd v).trace = s.trace ++ [Event.store_map_fd v] := rfl

@[simp] theorem trace_set_share_fd (s : State) (v : Int) :
    (s.set_share_fd v).trace = s.trace ++ [Event.store_share_fd v] := rfl

@[simp] theorem trace_ALOGE (K : Kernel) (s : State) (m : LogMsg) :
    (ALOGE K s m).trace = s.trace ++ [Event.log m] := rfl

@[simp] theorem trace_mapped (s : State) (length : Nat) (prot flags fd offset : Int)
    (m : MmapRet) :
    (mapped s length prot flags fd offset m).trace
      = s.trace ++ [Event.sys_mmap NULL length prot flags fd offset, Event.store_ptr m.ptr] := by
  simp [mapped, State.emit]

/-! ## The error-pointer test -/

theorem errPtrBase_eq (P : Platform) (hw : 12 ≤ P.ptrBits) :
    errPtrBase P = 2 ^ P.ptrBits - 4095 := by
  have h : 2 ^ 12 ≤ 2 ^ P.ptrBits := Nat.pow_le_pow_right (by norm_num) hw
  have h4 : (2 : Nat) ^ 12 = 4096 := by norm_num
  unfold errPtrBase
  have h1 : 4095 % 2 ^ P.ptrBits = 4095 := Nat.mod_eq_of_lt (by omega)
  rw [h1]
  exact Nat.mod_eq_of_lt (by omega)

theorem IS_ERR_OR_NULL_iff (P : Platform) (hw : 12 ≤ P.ptrBits) (p : Nat) :
    IS_ERR_OR_NULL P p = true ↔ (p = 0 ∨ 2 ^ P.ptrBits - 4095 ≤ p) := by
  simp [IS_ERR_OR_NULL, NULL, errPtrBase_eq P hw]

theorem IS_ERR_OR_NULL_false_iff (P : Platform) (hw : 12 ≤ P.ptrBits) (p : Nat) :
    IS_ERR_OR_NULL P p = false ↔ (p ≠ 0 ∧ p < 2 ^ P.ptrBits - 4095) := by
  rw [← Bool.not_eq_true, IS_ERR_OR_NULL_iff P hw]
  omega

/-! ## Case analysis of each entry point -/

section cases

variable (P : Platform) (K : Kernel) (s : State) (fd : Int)

theorem ion_alloc_of_neg (len align flags : Nat)
    (h : (ion_ioctl K s fd .ION_IOC_ALLOC
      { len := len, align := align, flags := flags, handle := 0 }).ret < 0) :
    ion_alloc P K s fd len align flags =
      { ret := (ion_ioctl K s fd .ION_IOC_ALLOC
          { len := len, align := align, flags := flags, handle := 0 }).ret,
        st := (ion_ioctl K s fd .ION_IOC_ALLOC
          { len := len, align := align, flags := flags, handle := 0 }).st } := by
  unfold ion_alloc
  simp only []
  rw [if_pos h]

theorem ion_alloc_of_err (len align flags : Nat)
    (h : 0 ≤ (ion_ioctl K s fd .ION_IOC_ALLOC
      { len := len, align := align, flags := flags, handle := 0 }).ret)
    (hp : IS_ERR_OR_NULL P (ion_ioctl K s fd .ION_IOC_ALLOC
      { len := len, align := align, flags := flags, handle := 0 }).arg.handle = true) :
    ion_alloc P K s fd len align flags =
      { ret := -EINVAL,
        st := (ion_ioctl K s fd .ION_IOC_ALLOC
          { len := len, align := align, flags := flags, handle := 0 }).st } := by
  unfold ion_alloc
  simp only []
  rw [if_neg (not_lt.mpr h), if_pos hp]

theorem ion_alloc_of_ok (len align flags : Nat)
    (h : 0 ≤ (ion_ioctl K s fd .ION_IOC_ALLOC
      { len := len, align := align, flags := flags, handle := 0 }).ret)
    (hp : IS_ERR_OR_NULL P (ion_ioctl K s fd .ION_IOC_ALLOC
      { len := len, align := align, flags := flags, handle := 0 }).arg.handle = false) :
    ion_alloc P K s fd len align flags =
      { ret := (ion_ioctl K s fd .ION_IOC_ALLOC
          { len := len, align := align, flags := flags, handle := 0 }).ret,
        st := (ion_ioctl K s fd .ION_IOC_ALLOC
          { len := len, align := align, flags := flags, handle := 0 }).st.set_handle
            (ion_ioctl K s fd .ION_IOC_ALLOC
              { len := len, align := align, flags := flags, handle := 0 }).arg.handle } := by
  unfold ion_alloc
  simp only []
  rw [if_neg (not_lt.mpr h), if_neg (by simp [hp])]

theorem ion_alloc_tiler_of_neg (w h : Nat) (fmt : Int) (flags : Nat)
    (d : Dispatch .ION_IOC_CUSTOM)
    (hd : ion_ioctl K s fd .ION_IOC_CUSTOM
      { cmd := P.OMAP_ION_TILER_ALLOC,
        arg := { w := w, h := h, fmt := fmt, flags := flags, handle := 0, stride := 0,
                 out_align := P.PAGE_SIZE, token := 0 } } = d)
    (hn : d.ret < 0) :
    ion_alloc_tiler P K s fd w h fmt flags = { ret := d.ret, st := d.st } := by
  subst hd
  unfold ion_alloc_tiler
  simp only []
  rw [if_pos hn]

theorem ion_alloc_tiler_of_ok (w h : Nat) (fmt : Int) (flags : Nat)
    (d : Dispatch .ION_IOC_CUSTOM)
    (hd : ion_ioctl K s fd .ION_IOC_CUSTOM
      { cmd := P.OMAP_ION_TILER_ALLOC,
        arg := { w := w, h := h, fmt := fmt, flags := flags, handle := 0, stride := 0,
                 out_align := P.PAGE_SIZE, token := 0 } } = d)
    (hn : 0 ≤ d.ret) :
    ion_alloc_tiler P K s fd w h fmt flags =
      { ret := d.ret,
        st := (d.st.set_stride d.arg.arg.stride).set_handle d.arg.arg.handle } := by
  subst hd
  unfold ion_alloc_tiler
  simp only []
  rw [if_neg (not_lt.mpr hn)]

theorem ion_free_eq (handle : Nat) :
    ion_free K s fd handle =
      { ret := (ion_ioctl K s fd .ION_IOC_FREE { handle := handle }).ret,
        st := (ion_ioctl K s fd .ION_IOC_FREE { handle := handle }).st } := rfl

theorem ion_map_of_neg (handle length : Nat) (prot flags offset : Int)
    (h : (ion_ioctl K s fd .ION_IOC_MAP
      { handle := handle, fd := 0, cacheable := 0 }).ret < 0) :
    ion_map P K s fd handle length prot flags offset =
      { ret := (ion_ioctl K s fd .ION_IOC_MAP
          { handle := handle, fd := 0, cacheable := 0 }).ret,
        st := (ion_ioctl K s fd .ION_IOC_MAP
          { handle := handle, fd := 0, cacheable := 0 }).st } := by
  unfold ion_map
  simp only []
  rw [if_pos h]

theorem ion_map_of_neg_fd (handle length : Nat) (prot flags offset : Int)
    (d : Dispatch .ION_IOC_MAP)
    (hd : ion_ioctl K s fd .ION_IOC_MAP
      { handle := handle, fd := 0, cacheable := 0 } = d)
    (h : 0 ≤ d.ret) (hf : d.arg.fd < 0) :
    ion_map P K s fd handle length prot flags offset =
      { ret := -EINVAL, st := ALOGE K (d.st.set_map_fd d.arg.fd) (.negative_fd (some "ion_map")) } := by
  subst hd
  unfold ion_map
  simp only []
  rw [if_neg (not_lt.mpr h), if_pos (by simpa [State.set_map_fd] using hf)]

theorem ion_map_of_mmap (handle length : Nat) (prot flags offset : Int)
    (d : Dispatch .ION_IOC_MAP)
    (hd : ion_ioctl K s fd .ION_IOC_MAP
      { handle := handle, fd := 0, cacheable := 0 } = d)
    (h : 0 ≤ d.ret) (hf : 0 ≤ d.arg.fd) (m : MmapRet)
    (hm : K.sys_mmap (d.st.set_map_fd d.arg.fd) NULL length prot flags d.arg.fd offset = m) :
    ion_map P K s fd handle length prot flags offset =
      if m.ptr = MAP_FAILED P then
        { ret := -(ALOGE K (mapped (d.st.set_map_fd d.arg.fd) length prot flags
            d.arg.fd offset m) (.mmap_failed (some "ion_map") m.errno)).errno,
          st := ALOGE K (mapped (d.st.set_map_fd d.arg.fd) length prot flags
            d.arg.fd offset m) (.mmap_failed (some "ion_map") m.errno) }
      else
        { ret := d.ret, st := mapped (d.st.set_map_fd d.arg.fd) length prot flags
            d.arg.fd offset m } := by
  subst hd hm
  unfold ion_map
  simp only []
  rw [if_neg (not_lt.mpr h), if_neg (by simpa [State.set_map_fd] using hf)]
  rfl

theorem ion_map_cacheable_of_neg (handle length : Nat) (prot flags offset : Int)
    (h : (ion_ioctl K s fd .ION_IOC_MAP
      { handle := handle, fd := 0, cacheable := 1 }).ret < 0) :
    ion_map_cacheable P K s fd handle length prot flags offset =
      { ret := (ion_ioctl K s fd .ION_IOC_MAP
          { handle := handle, fd := 0, cacheable := 1 }).ret,
        st := (ion_ioctl K s fd .ION_IOC_MAP
          { handle := handle, fd := 0, cacheable := 1 }).st } := by
  unfold ion_map_cacheable
  simp only []
  rw [if_pos h]

theorem ion_map_cacheable_of_neg_fd (handle length : Nat) (prot flags offset : Int)
    (d : Dispatch .ION_IOC_MAP)
    (hd : ion_ioctl K s fd .ION_IOC_MAP
      { handle := handle, fd := 0, cacheable := 1 } = d)
    (h : 0 ≤ d.ret) (hf : d.arg.fd < 0) :
    ion_map_cacheable P K s fd handle length prot flags offset =
      { ret := -EINVAL, st := ALOGE K (d.st.set_map_fd d.arg.fd) (.negative_fd none) } := by
  subst hd
  unfold ion_map_cacheable
  simp only []
  rw [if_neg (not_lt.mpr h), if_pos (by simpa [State.set_map_fd] using hf)]

theorem ion_map_cacheable_of_mmap (handle length : Nat) (prot flags offset : Int)
    (d : Dispatch .ION_IOC_MAP)
    (hd : ion_ioctl K s fd .ION_IOC_MAP
      { handle := handle, fd := 0, cacheable := 1 } = d)
    (h : 0 ≤ d.ret) (hf : 0 ≤ d.arg.fd) (m : MmapRet)
    (hm : K.sys_mmap (d.st.set_map_fd d.arg.fd) NULL length prot flags d.arg.fd offset = m) :
    ion_map_cacheable P K s fd handle length prot flags offset =
      if m.ptr = MAP_FAILED P then
        { ret := -(ALOGE K (mapped (d.st.set_map_fd d.arg.fd) length prot flags
            d.arg.fd offset m) (.mmap_failed none m.errno)).errno,
          st := ALOGE K (mapped (d.st.set_map_fd d.arg.fd) length prot flags
            d.arg.fd offset m) (.mmap_failed none m.errno) }
      else
        { ret := d.ret, st := mapped (d.st.set_map_fd d.arg.fd) length prot flags
            d.arg.fd offset m } := by
  subst hd hm
  unfold ion_map_cacheable
  simp only []
  rw [if_neg (not_lt.mpr h), if_neg (by simpa [State.set_map_fd] using hf)]
  rfl

theorem ion_share_of_neg (handle : Nat) (d : Dispatch .ION_IOC_SHARE)
    (hd : ion_ioctl K s fd .ION_IOC_SHARE { handle := handle, fd := 0, cacheable := 0 } = d)
    (h : d.ret < 0) :
    ion_share K s fd handle = { ret := d.ret, st := d.st } := by
  subst hd
  unfold ion_share
  simp only []
  rw [if_pos h]

theorem ion_share_of_neg_fd (handle : Nat) (d : Dispatch .ION_IOC_SHARE)
    (hd : ion_ioctl K s fd .ION_IOC_SHARE { handle := handle, fd := 0, cacheable := 0 } = d)
    (h : 0 ≤ d.ret) (hf : d.arg.fd < 0) :
    ion_share K s fd handle =
      { ret := -EINVAL, st := ALOGE K (d.st.set_share_fd d.arg.fd) (.negative_fd none) } := by
  subst hd
  unfold ion_share
  simp only []
  rw [if_neg (not_lt.mpr h), if_pos (by simpa [State.set_share_fd] using hf)]

theorem ion_share_of_ok (handle : Nat) (d : Dispatch .ION_IOC_SHARE)
    (hd : ion_ioctl K s fd .ION_IOC_SHARE { handle := handle, fd := 0, cacheable := 0 } = d)
    (h : 0 ≤ d.ret) (hf : 0 ≤ d.arg.fd) :
    ion_share K s fd handle = { ret := d.ret, st := d.st.set_share_fd d.arg.fd } := by
  subst hd
  unfold ion_share
  simp only []
  rw [if_neg (not_lt.mpr h), if_neg (by simpa [State.set_share_fd] using hf)]

theorem ion_import_of_neg (share_fd : Int) (d : Dispatch .ION_IOC_IMPORT)
    (hd : ion_ioctl K s fd .ION_IOC_IMPORT { handle := 0, fd := share_fd, cacheable := 0 } = d)
    (h : d.ret < 0) :
    ion_import K s fd share_fd = { ret := d.ret, st := d.st } := by
  subst hd
  unfold ion_import
  simp only []
  rw [if_pos h]

theorem ion_import_of_ok (share_fd : Int) (d : Dispatch .ION_IOC_IMPORT)
    (hd : ion_ioctl K s fd .ION_IOC_IMPORT { handle := 0, fd := share_fd, cacheable := 0 } = d)
    (h : 0 ≤ d.ret) :
    ion_import K s fd share_fd = { ret := d.ret, st := d.st.set_handle d.arg.handle } := by
  subst hd
  unfold ion_import
  simp only []
  rw [if_neg (not_lt.mpr h)]

end cases

/-! ## What the two map functions do in each case -/

theorem ion_map_neg_facts (P : Platform) (K : Kernel) (s : State) (fd : Int)
    (handle length : Nat) (prot flags offset : Int)
    (d : Dispatch .ION_IOC_MAP) (r : Outcome)
    (hd : ion_ioctl K s fd .ION_IOC_MAP { handle := handle, fd := 0, cacheable := 0 } = d)
    (hr : ion_map P K s fd handle length prot flags offset = r)
    (h : d.ret < 0) :
    r.ret = d.ret ∧ r.st = d.st ∧ r.st.ptr = s.ptr ∧ r.st.map_fd = s.map_fd ∧
    (s.since r.st).filter Event.isStore = [] ∧
    (s.since r.st).filter Event.isMmap = [] := by
  subst hd hr
  have e := ion_map_of_neg P K s fd handle length prot flags offset h
  have c := ion_ioctl_cells K s fd .ION_IOC_MAP { handle := handle, fd := 0, cacheable := 0 }
  have t := ion_ioctl_since K s fd .ION_IOC_MAP { handle := handle, fd := 0, cacheable := 0 }
    (ion_map P K s fd handle length prot flags offset).st [] (by rw [e]; simp)
  refine ⟨by rw [e], by rw [e], by rw [e]; exact c.2.2.1, by rw [e]; exact c.2.2.2.1, ?_, ?_⟩
  · simpa using t.1
  · simpa using t.2.1

theorem ion_map_neg_fd_facts (P : Platform) (K : Kernel) (s : State) (fd : Int)
    (handle length : Nat) (prot flags offset : Int)
    (d : Dispatch .ION_IOC_MAP) (r : Outcome)
    (hd : ion_ioctl K s fd .ION_IOC_MAP { handle := handle, fd := 0, cacheable := 0 } = d)
    (hr : ion_map P K s fd handle length prot flags offset = r)
    (h : 0 ≤ d.ret) (hf : d.arg.fd < 0) :
    r.ret = -EINVAL ∧ r.st.ptr = s.ptr ∧ r.st.map_fd = d.arg.fd ∧
    (s.since r.st).filter Event.isStore = [Event.store_map_fd d.arg.fd] ∧
    (s.since r.st).filter Event.isMmap = [] := by
  have e := ion_map_of_neg_fd P K s fd handle length prot flags offset d hd h hf
  subst hd hr
  have c := ion_ioctl_cells K s fd .ION_IOC_MAP { handle := handle, fd := 0, cacheable := 0 }
  have t := ion_ioctl_since K s fd .ION_IOC_MAP { handle := handle, fd := 0, cacheable := 0 }
    (ion_map P K s fd handle length prot flags offset).st _ (by rw [e]; simp; rfl)
  refine ⟨by rw [e], by rw [e]; exact c.2.2.1, by rw [e]; rfl, ?_, ?_⟩
  · simpa [List.filter_cons, Event.isStore] using t.1
  · simpa [List.filter_cons, Event.isMmap] using t.2.1

theorem ion_map_mmap_facts (P : Platform) (K : Kernel) (s : State) (fd : Int)
    (handle length : Nat) (prot flags offset : Int)
    (d : Dispatch .ION_IOC_MAP) (r : Outcome) (m : MmapRet)
    (hd : ion_ioctl K s fd .ION_IOC_MAP { handle := handle, fd := 0, cacheable := 0 } = d)
    (hr : ion_map P K s fd handle length prot flags offset = r)
    (hm : K.sys_mmap (d.st.set_map_fd d.arg.fd) NULL length prot flags d.arg.fd offset = m)
    (h : 0 ≤ d.ret) (hf : 0 ≤ d.arg.fd) :
    r.ret = (if m.ptr = MAP_FAILED P then
        -(K.log_errno (mapped (d.st.set_map_fd d.arg.fd) length prot flags d.arg.fd offset m)
          (.mmap_failed (some "ion_map") m.errno))
      else d.ret) ∧
    r.st.errno = (if m.ptr = MAP_FAILED P then
        K.log_errno (mapped (d.st.set_map_fd d.arg.fd) length prot flags d.arg.fd offset m)
          (.mmap_failed (some "ion_map") m.errno)
      else m.errno) ∧
    r.st.ptr = m.ptr ∧ r.st.map_fd = d.arg.fd ∧
    (s.since r.st).filter Event.isStore
      = [Event.store_map_fd d.arg.fd, Event.store_ptr m.ptr] ∧
    (s.since r.st).filter Event.isMmap
      = [Event.sys_mmap NULL length prot flags d.arg.fd offset] := by
  have e := ion_map_of_mmap P K s fd handle length prot flags offset d hd h hf m hm
  subst hd hr
  by_cases hp : m.ptr = MAP_FAILED P
  · rw [if_pos hp] at e
    have t := ion_ioctl_since K s fd .ION_IOC_MAP { handle := handle, fd := 0, cacheable := 0 }
      (ion_map P K s fd handle length prot flags offset).st _ (by rw [e]; simp; rfl)
    refine ⟨by rw [e, if_pos hp]; rfl, by rw [e, if_pos hp]; rfl, by rw [e]; rfl,
      by rw [e]; rfl, ?_, ?_⟩
    · simpa [List.filter_cons, Event.isStore] using t.1
    · simpa [List.filter_cons, Event.isMmap] using t.2.1
  · rw [if_neg hp] at e
    have t := ion_ioctl_since K s fd .ION_IOC_MAP { handle := handle, fd := 0, cacheable := 0 }
      (ion_map P K s fd handle length prot flags offset).st _ (by rw [e]; simp; rfl)
    refine ⟨by rw [e, if_neg hp], by rw [e, if_neg hp]; rfl, by rw [e]; rfl,
      by rw [e]; rfl, ?_, ?_⟩
    · simpa [List.filter_cons, Event.isStore] using t.1
    · simpa [List.filter_cons, Event.isMmap] using t.2.1

theorem ion_map_cacheable_neg_facts (P : Platform) (K : Kernel) (s : State) (fd : Int)
    (handle length : Nat) (prot flags offset : Int)
    (d : Dispatch .ION_IOC_MAP) (r : Outcome)
    (hd : ion_ioctl K s fd .ION_IOC_MAP { handle := handle, fd := 0, cacheable := 1 } = d)
    (hr : ion_map_cacheable P K s fd handle length prot flags offset = r)
    (h : d.ret < 0) :
    r.ret = d.ret ∧ r.st = d.st ∧ r.st.ptr = s.ptr ∧ r.st.map_fd = s.map_fd ∧
    (s.since r.st).filter Event.isStore = [] ∧
    (s.since r.st).filter Event.isMmap = [] := by
  subst hd hr
  have e := ion_map_cacheable_of_neg P K s fd handle length prot flags offset h
  have c := ion_ioctl_cells K s fd .ION_IOC_MAP { handle := handle, fd := 0, cacheable := 1 }
  have t := ion_ioctl_since K s fd .ION_IOC_MAP { handle := handle, fd := 0, cacheable := 1 }
    (ion_map_cacheable P K s fd handle length prot flags offset).st [] (by rw [e]; simp)
  refine ⟨by rw [e], by rw [e], by rw [e]; exact c.2.2.1, by rw [e]; exact c.2.2.2.1, ?_, ?_⟩
  · simpa using t.1
  · simpa using t.2.1

theorem ion_map_cacheable_neg_fd_facts (P : Platform) (K : Kernel) (s : State) (fd : Int)
    (handle length : Nat) (prot flags offset : Int)
    (d : Dispatch .ION_IOC_MAP) (r : Outcome)
    (hd : ion_ioctl K s fd .ION_IOC_MAP { handle := handle, fd := 0, cacheable := 1 } = d)
    (hr : ion_map_cacheable P K s fd handle length prot flags offset = r)
    (h : 0 ≤ d.ret) (hf : d.arg.fd < 0) :
    r.ret = -EINVAL ∧ r.st.ptr = s.ptr ∧ r.st.map_fd = d.arg.fd ∧
    (s.since r.st).filter Event.isStore = [Event.store_map_fd d.arg.fd] ∧
    (s.since r.st).filter Event.isMmap = [] := by
  have e := ion_map_cacheable_of_neg_fd P K s fd handle length prot flags offset d hd h hf
  subst hd hr
  have c := ion_ioctl_cells K s fd .ION_IOC_MAP { handle := handle, fd := 0, cacheable := 1 }
  have t := ion_ioctl_since K s fd .ION_IOC_MAP { handle := handle, fd := 0, cacheable := 1 }
    (ion_map_cacheable P K s fd handle length prot flags offset).st _ (by rw [e]; simp; rfl)
  refine ⟨by rw [e], by rw [e]; exact c.2.2.1, by rw [e]; rfl, ?_, ?_⟩
  · simpa [List.filter_cons, Event.isStore] using t.1
  · simpa [List.filter_cons, Event.isMmap] using t.2.1

theorem ion_map_cacheable_mmap_facts (P : Platform) (K : Kernel) (s : State) (fd : Int)
    (handle length : Nat) (prot flags offset : Int)
    (d : Dispatch .ION_IOC_MAP) (r : Outcome) (m : MmapRet)
    (hd : ion_ioctl K s fd .ION_IOC_MAP { handle := handle, fd := 0, cacheable := 1 } = d)
    (hr : ion_map_cacheable P K s fd handle length prot flags offset = r)
    (hm : K.sys_mmap (d.st.set_map_fd d.arg.fd) NULL length prot flags d.arg.fd offset = m)
    (h : 0 ≤ d.ret) (hf : 0 ≤ d.arg.fd) :
    r.ret = (if m.ptr = MAP_FAILED P then
        -(K.log_errno (mapped (d.st.set_map_fd d.arg.fd) length prot flags d.arg.fd offset m)
          (.mmap_failed none m.errno))
      else d.ret) ∧
    r.st.errno = (if m.ptr = MAP_FAILED P then
        K.log_errno (mapped (d.st.set_map_fd d.arg.fd) length prot flags d.arg.fd offset m)
          (.mmap_failed none m.errno)
      else m.errno) ∧
    r.st.ptr = m.ptr ∧ r.st.map_fd = d.arg.fd ∧
    (s.since r.st).filter Event.isStore
      = [Event.store_map_fd d.arg.fd, Event.store_ptr m.ptr] ∧
    (s.since r.st).filter Event.isMmap
      = [Event.sys_mmap NULL length prot flags d.arg.fd offset] := by
  have e := ion_map_cacheable_of_mmap P K s fd handle length prot flags offset d hd h hf m hm
  subst hd hr
  by_cases hp : m.ptr = MAP_FAILED P
  · rw [if_pos hp] at e
    have t := ion_ioctl_since K s fd .ION_IOC_MAP { handle := handle, fd := 0, cacheable := 1 }
      (ion_map_cacheable P K s fd handle length prot flags offset).st _ (by rw [e]; simp; rfl)
    refine ⟨by rw [e, if_pos hp]; rfl, by rw [e, if_pos hp]; rfl, by rw [e]; rfl,
      by rw [e]; rfl, ?_, ?_⟩
    · simpa [List.filter_cons, Event.isStore] using t.1
    · simpa [List.filter_cons, Event.isMmap] using t.2.1
  · rw [if_neg hp] at e
    have t := ion_ioctl_since K s fd .ION_IOC_MAP { handle := handle, fd := 0, cacheable := 1 }
      (ion_map_cacheable P K s fd handle length prot flags offset).st _ (by rw [e]; simp; rfl)
    refine ⟨by rw [e, if_neg hp], by rw [e, if_neg hp]; rfl, by rw [e]; rfl,
      by rw [e]; rfl, ?_, ?_⟩
    · simpa [List.filter_cons, Event.isStore] using t.1
    · simpa [List.filter_cons, Event.isMmap] using t.2.1

theorem ion_map_requests (P : Platform) (K : Kernel) (s : State) (fd : Int)
    (handle length : Nat) (prot flags offset : Int) :
    (s.since (ion_map P K s fd handle length prot flags offset).st).filter Event.isIoctl
      = [Event.sys_ioctl fd .ION_IOC_MAP { handle := handle, fd := 0, cacheable := 0 }] := by
  by_cases h : (ion_ioctl K s fd .ION_IOC_MAP { handle := handle, fd := 0, cacheable := 0 }).ret < 0
  · have e := ion_map_of_neg P K s fd handle length prot flags offset h
    have t := ion_ioctl_since K s fd .ION_IOC_MAP { handle := handle, fd := 0, cacheable := 0 }
      (ion_map P K s fd handle length prot flags offset).st [] (by rw [e]; simp)
    simpa using t.2.2
  · have h0 := not_lt.mp h
    by_cases hf : (ion_ioctl K s fd .ION_IOC_MAP { handle := handle, fd := 0, cacheable := 0 }).arg.fd < 0
    · have e := ion_map_of_neg_fd P K s fd handle length prot flags offset _ rfl h0 hf
      have t := ion_ioctl_since K s fd .ION_IOC_MAP { handle := handle, fd := 0, cacheable := 0 }
        (ion_map P K s fd handle length prot flags offset).st _ (by rw [e]; simp; rfl)
      simpa [List.filter_cons, Event.isIoctl] using t.2.2
    · have e := ion_map_of_mmap P K s fd handle length prot flags offset _ rfl h0
        (not_lt.mp hf) _ rfl
      split at e
      · have t := ion_ioctl_since K s fd .ION_IOC_MAP { handle := handle, fd := 0, cacheable := 0 }
          (ion_map P K s fd handle length prot flags offset).st _ (by rw [e]; simp; rfl)
        simpa [List.filter_cons, Event.isIoctl] using t.2.2
      · have t := ion_ioctl_since K s fd .ION_IOC_MAP { handle := handle, fd := 0, cacheable := 0 }
          (ion_map P K s fd handle length prot flags offset).st _ (by rw [e]; simp; rfl)
        simpa [List.filter_cons, Event.isIoctl] using t.2.2

theorem ion_map_cacheable_requests (P : Platform) (K : Kernel) (s : State) (fd : Int)
    (handle length : Nat) (prot flags offset : Int) :
    (s.since (ion_map_cacheable P K s fd handle length prot flags offset).st).filter Event.isIoctl
      = [Event.sys_ioctl fd .ION_IOC_MAP { handle := handle, fd := 0, cacheable := 1 }] := by
  by_cases h : (ion_ioctl K s fd .ION_IOC_MAP { handle := handle, fd := 0, cacheable := 1 }).ret < 0
  · have e := ion_map_cacheable_of_neg P K s fd handle length prot flags offset h
    have t := ion_ioctl_since K s fd .ION_IOC_MAP { handle := handle, fd := 0, cacheable := 1 }
      (ion_map_cacheable P K s fd handle length prot flags offset).st [] (by rw [e]; simp)
    simpa using t.2.2
  · have h0 := not_lt.mp h
    by_cases hf : (ion_ioctl K s fd .ION_IOC_MAP { handle := handle, fd := 0, cacheable := 1 }).arg.fd < 0
    · have e := ion_map_cacheable_of_neg_fd P K s fd handle length prot flags offset _ rfl h0 hf
      have t := ion_ioctl_since K s fd .ION_IOC_MAP { handle := handle, fd := 0, cacheable := 1 }
        (ion_map_cacheable P K s fd handle length prot flags offset).st _ (by rw [e]; simp; rfl)
      simpa [List.filter_cons, Event.isIoctl] using t.2.2
    · have e := ion_map_cacheable_of_mmap P K s fd handle length prot flags offset _ rfl h0
        (not_lt.mp hf) _ rfl
      split at e
      · have t := ion_ioctl_since K s fd .ION_IOC_MAP { handle := handle, fd := 0, cacheable := 1 }
          (ion_map_cacheable P K s fd handle length prot flags offset).st _ (by rw [e]; simp; rfl)
        simpa [List.filter_cons, Event.isIoctl] using t.2.2
      · have t := ion_ioctl_since K s fd .ION_IOC_MAP { handle := handle, fd := 0, cacheable := 1 }
          (ion_map_cacheable P K s fd handle length prot flags offset).st _ (by rw [e]; simp; rfl)
        simpa [List.filter_cons, Event.isIoctl] using t.2.2

theorem ion_share_neg_fd_facts (K : Kernel) (s : State) (fd : Int) (handle : Nat)
    (d : Dispatch .ION_IOC_SHARE) (r : Outcome)
    (hd : ion_ioctl K s fd .ION_IOC_SHARE { handle := handle, fd := 0, cacheable := 0 } = d)
    (hr : ion_share K s fd handle = r) (h : 0 ≤ d.ret) (hf : d.arg.fd < 0) :
    r.ret = -EINVAL ∧ r.st.share_fd = d.arg.fd ∧
    (s.since r.st).filter Event.isStore = [Event.store_share_fd d.arg.fd] := by
  have e := ion_share_of_neg_fd K s fd handle d hd h hf
  subst hd hr
  have t := ion_ioctl_since K s fd .ION_IOC_SHARE
    { handle := handle, fd := 0, cacheable := 0 }
    (ion_share K s fd handle).st _ (by rw [e]; simp; rfl)
  refine ⟨by rw [e], by rw [e]; rfl, ?_⟩
  simpa [List.filter_cons, Event.isStore] using t.1

theorem ion_alloc_failure_frame (P : Platform) (K : Kernel) (s : State) (fd : Int)
    (len align flags : Nat) (h : (ion_alloc P K s fd len align flags).ret < 0) :
    (ion_alloc P K s fd len align flags).st.handle = s.handle ∧
    (s.since (ion_alloc P K s fd len align flags).st).filter Event.isStore = [] := by
  have c := ion_ioctl_cells K s fd .ION_IOC_ALLOC
    { len := len, align := align, flags := flags, handle := 0 }
  have hst : (ion_alloc P K s fd len align flags).st = (ion_ioctl K s fd .ION_IOC_ALLOC
      { len := len, align := align, flags := flags, handle := 0 }).st := by
    by_cases hn : (ion_ioctl K s fd .ION_IOC_ALLOC
        { len := len, align := align, flags := flags, handle := 0 }).ret < 0
    · rw [ion_alloc_of_neg P K s fd len align flags hn]
    · cases hp : IS_ERR_OR_NULL P (ion_ioctl K s fd .ION_IOC_ALLOC
          { len := len, align := align, flags := flags, handle := 0 }).arg.handle
      · rw [ion_alloc_of_ok P K s fd len align flags (not_lt.mp hn) hp] at h
        exact absurd h hn
      · rw [ion_alloc_of_err P K s fd len align flags (not_lt.mp hn) hp]
  have t := ion_ioctl_since K s fd .ION_IOC_ALLOC
    { len := len, align := align, flags := flags, handle := 0 }
    (ion_alloc P K s fd len align flags).st [] (by rw [hst]; simp)
  exact ⟨by rw [hst]; exact c.1, by simpa using t.1⟩

theorem ion_alloc_tiler_requests (P : Platform) (K : Kernel) (s : State) (fd : Int)
    (w h : Nat) (fmt : Int) (flags : Nat) :
    (s.since (ion_alloc_tiler P K s fd w h fmt flags).st).filter Event.isIoctl
      = [Event.sys_ioctl fd .ION_IOC_CUSTOM
          { cmd := P.OMAP_ION_TILER_ALLOC,
            arg := { w := w, h := h, fmt := fmt, flags := flags, handle := 0, stride := 0,
                     out_align := P.PAGE_SIZE, token := 0 } }] := by
  by_cases hn : (ion_ioctl K s fd .ION_IOC_CUSTOM
      { cmd := P.OMAP_ION_TILER_ALLOC,
        arg := { w := w, h := h, fmt := fmt, flags := flags, handle := 0, stride := 0,
                 out_align := P.PAGE_SIZE, token := 0 } }).ret < 0
  · have e := ion_alloc_tiler_of_neg P K s fd w h fmt flags _ rfl hn
    have t := ion_ioctl_since K s fd .ION_IOC_CUSTOM
      { cmd := P.OMAP_ION_TILER_ALLOC,
          arg := { w := w, h := h, fmt := fmt, flags := flags, handle := 0, stride := 0,
                   out_align := P.PAGE_SIZE, token := 0 } }
      (ion_alloc_tiler P K s fd w h fmt flags).st [] (by rw [e]; simp)
    simpa using t.2.2
  · have e := ion_alloc_tiler_of_ok P K s fd w h fmt flags _ rfl (not_lt.mp hn)
    have t := ion_ioctl_since K s fd .ION_IOC_CUSTOM
      { cmd := P.OMAP_ION_TILER_ALLOC,
          arg := { w := w, h := h, fmt := fmt, flags := flags, handle := 0, stride := 0,
                   out_align := P.PAGE_SIZE, token := 0 } }
      (ion_alloc_tiler P K s fd w h fmt flags).st _ (by rw [e]; simp; rfl)
    simpa [List.filter_cons, Event.isIoctl] using t.2.2

theorem ion_import_requests (K : Kernel) (s : State) (fd : Int) (share_fd : Int) :
    (s.since (ion_import K s fd share_fd).st).filter Event.isIoctl
      = [Event.sys_ioctl fd .ION_IOC_IMPORT
          { handle := 0, fd := share_fd, cacheable := 0 }] := by
  by_cases hn : (ion_ioctl K s fd .ION_IOC_IMPORT
      { handle := 0, fd := share_fd, cacheable := 0 }).ret < 0
  · have e := ion_import_of_neg K s fd share_fd _ rfl hn
    have t := ion_ioctl_since K s fd .ION_IOC_IMPORT
      { handle := 0, fd := share_fd, cacheable := 0 }
      (ion_import K s fd share_fd).st [] (by rw [e]; simp)
    simpa using t.2.2
  · have e := ion_import_of_ok K s fd share_fd _ rfl (not_lt.mp hn)
    have t := ion_ioctl_since K s fd .ION_IOC_IMPORT
      { handle := 0, fd := share_fd, cacheable := 0 }
      (ion_import K s fd share_fd).st _ (by rw [e]; simp; rfl)
    simpa [List.filter_cons, Event.isIoctl] using t.2.2

theorem script_dispatch_ret (c : Script) (h : 0 ≤ c.ret) (s : State) (fd : Int) (req : Req)
    (arg : req.Buf) : (ion_ioctl c.kernel s fd req arg).ret = c.ret := by
  have hk : (c.kernel.sys_ioctl s fd req arg).ret = c.ret := by
    cases req <;> rfl
  rw [ion_ioctl_nonneg c.kernel s fd req arg (by rw [hk]; exact h), hk]

/-! ## The code returned on failure -/

theorem ion_alloc_failure_code (P : Platform) (K : Kernel) (s : State) (fd : Int)
    (len align flags : Nat) :
    NegatedErrnoOrEINVAL (ion_alloc P K s fd len align flags) := by
  intro hneg
  by_cases hn : (ion_ioctl K s fd .ION_IOC_ALLOC
      { len := len, align := align, flags := flags, handle := 0 }).ret < 0
  · rw [ion_alloc_of_neg P K s fd len align flags hn]
    exact Or.inl (ion_ioctl_ret_neg_errno K s fd .ION_IOC_ALLOC _ hn)
  · cases hp : IS_ERR_OR_NULL P (ion_ioctl K s fd .ION_IOC_ALLOC
        { len := len, align := align, flags := flags, handle := 0 }).arg.handle
    · rw [ion_alloc_of_ok P K s fd len align flags (not_lt.mp hn) hp] at hneg
      exact absurd hneg hn
    · rw [ion_alloc_of_err P K s fd len align flags (not_lt.mp hn) hp]
      exact Or.inr rfl

theorem ion_alloc_tiler_failure_code (P : Platform) (K : Kernel) (s : State) (fd : Int)
    (w h : Nat) (fmt : Int) (flags : Nat) :
    NegatedErrnoOrEINVAL (ion_alloc_tiler P K s fd w h fmt flags) := by
  intro hneg
  by_cases hn : (ion_ioctl K s fd .ION_IOC_CUSTOM
      { cmd := P.OMAP_ION_TILER_ALLOC,
        arg := { w := w, h := h, fmt := fmt, flags := flags, handle := 0, stride := 0,
                 out_align := P.PAGE_SIZE, token := 0 } }).ret < 0
  · rw [ion_alloc_tiler_of_neg P K s fd w h fmt flags _ rfl hn]
    exact Or.inl (ion_ioctl_ret_neg_errno K s fd .ION_IOC_CUSTOM _ hn)
  · rw [ion_alloc_tiler_of_ok P K s fd w h fmt flags _ rfl (not_lt.mp hn)] at hneg
    exact absurd hneg hn

theorem ion_free_failure_code (K : Kernel) (s : State) (fd : Int) (handle : Nat) :
    NegatedErrnoOrEINVAL (ion_free K s fd handle) := by
  intro hneg
  rw [ion_free_eq] at hneg ⊢
  exact Or.inl (ion_ioctl_ret_neg_errno K s fd .ION_IOC_FREE _ hneg)

theorem ion_map_failure_code (P : Platform) (K : Kernel) (s : State) (fd : Int)
    (handle length : Nat) (prot flags offset : Int) :
    NegatedErrnoOrEINVAL (ion_map P K s fd handle length prot flags offset) := by
  intro hneg
  by_cases hn : (ion_ioctl K s fd .ION_IOC_MAP { handle := handle, fd := 0, cacheable := 0 }).ret < 0
  · rw [ion_map_of_neg P K s fd handle length prot flags offset hn]
    exact Or.inl (ion_ioctl_ret_neg_errno K s fd .ION_IOC_MAP _ hn)
  · by_cases hf : (ion_ioctl K s fd .ION_IOC_MAP { handle := handle, fd := 0, cacheable := 0 }).arg.fd < 0
    · exact Or.inr (ion_map_neg_fd_facts P K s fd handle length prot flags offset _ _
        rfl rfl (not_lt.mp hn) hf).1
    · obtain ⟨a1, a2, _⟩ := ion_map_mmap_facts P K s fd handle length prot flags offset
        _ _ _ rfl rfl rfl (not_lt.mp hn) (not_lt.mp hf)
      rw [a1] at hneg ⊢
      rw [a2]
      split at hneg
      · rename_i hp
        simp only [if_pos hp]
        exact Or.inl trivial
      · exact absurd hneg hn

theorem ion_map_cacheable_failure_code (P : Platform) (K : Kernel) (s : State) (fd : Int)
    (handle length : Nat) (prot flags offset : Int) :
    NegatedErrnoOrEINVAL (ion_map_cacheable P K s fd handle length prot flags offset) := by
  intro hneg
  by_cases hn : (ion_ioctl K s fd .ION_IOC_MAP { handle := handle, fd := 0, cacheable := 1 }).ret < 0
  · rw [ion_map_cacheable_of_neg P K s fd handle length prot flags offset hn]
    exact Or.inl (ion_ioctl_ret_neg_errno K s fd .ION_IOC_MAP _ hn)
  · by_cases hf : (ion_ioctl K s fd .ION_IOC_MAP { handle := handle, fd := 0, cacheable := 1 }).arg.fd < 0
    · exact Or.inr (ion_map_cacheable_neg_fd_facts P K s fd handle length prot flags offset _ _
        rfl rfl (not_lt.mp hn) hf).1
    · obtain ⟨a1, a2, _⟩ := ion_map_cacheable_mmap_facts P K s fd handle length prot flags offset
        _ _ _ rfl rfl rfl (not_lt.mp hn) (not_lt.mp hf)
      rw [a1] at hneg ⊢
      rw [a2]
      split at hneg
      · rename_i hp
        simp only [if_pos hp]
        exact Or.inl trivial
      · exact absurd hneg hn

theorem ion_share_failure_code (K : Kernel) (s : State) (fd : Int) (handle : Nat) :
    NegatedErrnoOrEINVAL (ion_share K s fd handle) := by
  intro hneg
  by_cases hn : (ion_ioctl K s fd .ION_IOC_SHARE
      { handle := handle, fd := 0, cacheable := 0 }).ret < 0
  · rw [ion_share_of_neg K s fd handle _ rfl hn]
    exact Or.inl (ion_ioctl_ret_neg_errno K s fd .ION_IOC_SHARE _ hn)
  · by_cases hf : (ion_ioctl K s fd .ION_IOC_SHARE
        { handle := handle, fd := 0, cacheable := 0 }).arg.fd < 0
    · rw [ion_share_of_neg_fd K s fd handle _ rfl (not_lt.mp hn) hf]
      exact Or.inr rfl
    · rw [ion_share_of_ok K s fd handle _ rfl (not_lt.mp hn) (not_lt.mp hf)] at hneg
      exact absurd hneg hn

theorem ion_import_failure_code (K : Kernel) (s : State) (fd : Int) (share_fd : Int) :
    NegatedErrnoOrEINVAL (ion_import K s fd share_fd) := by
  intro hneg
  by_cases hn : (ion_ioctl K s fd .ION_IOC_IMPORT
      { handle := 0, fd := share_fd, cacheable := 0 }).ret < 0
  · rw [ion_import_of_neg K s fd share_fd _ rfl hn]
    exact Or.inl (ion_ioctl_ret_neg_errno K s fd .ION_IOC_IMPORT _ hn)
  · rw [ion_import_of_ok K s fd share_fd _ rfl (not_lt.mp hn)] at hneg
    exact absurd hneg hn

/-! ## The dispatcher -/

/-- C2, as stated, fails: `ioctl` answers `-1` with `errno = 13`, the diagnostic
that `ion_ioctl` emits before it reads `errno` leaves `5` there, and
`ion_ioctl` returns `-5`, not `-13`. -/
theorem ion_ioctl_reads_errno_after_log :
    (denyClobberScript.kernel.sys_ioctl st0 3 .ION_IOC_FREE { handle := 4096 }).ret = -1 ∧
    (denyClobberScript.kernel.sys_ioctl st0 3 .ION_IOC_FREE { handle := 4096 }).errno = 13 ∧
    (ion_ioctl denyClobberScript.kernel st0 3 .ION_IOC_FREE { handle := 4096 }).ret = -5 ∧
    (ion_ioctl denyClobberScript.kernel st0 3 .ION_IOC_FREE { handle := 4096 }).ret
      ≠ -(denyClobberScript.kernel.sys_ioctl st0 3 .ION_IOC_FREE { handle := 4096 }).errno := by
  decide

/-- C2, amended: when `ioctl` returns a negative status, `ion_ioctl` returns the
negated value that `errno` holds after the diagnostic was emitted; this is the
negated error code of `ioctl` whenever the diagnostic leaves `errno` as it
found it.  When `ioctl` returns a non-negative status, `ion_ioctl` returns
that status unchanged. -/
theorem ion_ioctl_status (K : Kernel) (s : State) (fd : Int) (req : Req) (arg : req.Buf) :
    let r := K.sys_ioctl s fd req arg
    let d := ion_ioctl K s fd req arg
    let t := dispatched s fd req arg r
    let m := LogMsg.ioctl_failed req r.ret r.errno fd
    (r.ret < 0 →
        d.ret = -d.st.errno ∧ d.st.errno = K.log_errno t m ∧
        (LogKeepsErrno K t m → d.ret = -r.errno)) ∧
    (0 ≤ r.ret → d.ret = r.ret) := by
  intro r d t m
  refine ⟨fun h => ?_, ion_ioctl_nonneg K s fd req arg⟩
  obtain ⟨h1, h2⟩ := ion_ioctl_neg K s fd req arg h
  refine ⟨by rw [h1, h2], h2, fun hk => ?_⟩
  have hk2 : K.log_errno t m = r.errno := hk
  rw [h1]
  exact congrArg Neg.neg hk2

/-- Witness for C2 (amended): on the denying subsystem, whose diagnostics leave
`errno` alone, `ioctl` answers `-1` with `errno = 13` and the free request is
answered `-13`; on the accepting one the status `0` is passed on. -/
theorem ion_ioctl_status_witness :
    (ion_ioctl denyScript.kernel st0 3 .ION_IOC_FREE { handle := 4096 }).ret = -13 ∧
    (ion_ioctl okScript.kernel st0 3 .ION_IOC_FREE { handle := 4096 }).ret = 0 :=
  ⟨((ion_ioctl_status denyScript.kernel st0 3 .ION_IOC_FREE { handle := 4096 }).1
      (by decide)).2.2 rfl,
   (ion_ioctl_status okScript.kernel st0 3 .ION_IOC_FREE { handle := 4096 }).2 (by decide)⟩

/-! ## Generic allocation -/

/-- C1: on a platform whose pointers have at least 13 bits, `IS_ERR_OR_NULL`
holds exactly of the null pointer and of the addresses from `2^w - 4095`
upwards (so `2^w - 4095` is rejected and `2^w - 4096` is accepted).  When the
dispatch of `ION_IOC_ALLOC` returns a non-negative status and the response
handle is rejected by that test, `ion_alloc` returns `-EINVAL`; when it is
accepted, `ion_alloc` returns the status of the dispatch, and its single store
puts the response handle in `*handle`.  Hence whenever `ion_alloc` returns a
non-negative status, `*handle` holds the response handle, which is neither
null nor in the error-pointer range.  The response record is the buffer as
`ioctl` left it. -/
theorem ion_alloc_validates_handle (P : Platform) (K : Kernel) (s : State) (fd : Int)
    (len align flags : Nat) (hw : 13 ≤ P.ptrBits) :
    let d := ion_ioctl K s fd .ION_IOC_ALLOC
      { len := len, align := align, flags := flags, handle := 0 }
    let r := ion_alloc P K s fd len align flags
    (∀ p, IS_ERR_OR_NULL P p = true ↔ (p = 0 ∨ 2 ^ P.ptrBits - 4095 ≤ p)) ∧
    IS_ERR_OR_NULL P (2 ^ P.ptrBits - 4095) = true ∧
    IS_ERR_OR_NULL P (2 ^ P.ptrBits - 4096) = false ∧
    (0 ≤ d.ret → IS_ERR_OR_NULL P d.arg.handle = true → r.ret = -EINVAL) ∧
    (0 ≤ d.ret → IS_ERR_OR_NULL P d.arg.handle = false →
      r.ret = d.ret ∧ r.st.handle = d.arg.handle ∧
      (s.since r.st).filter Event.isStore = [Event.store_handle d.arg.handle]) ∧
    (0 ≤ r.ret →
      r.st.handle = d.arg.handle ∧ r.st.handle ≠ 0 ∧ r.st.handle < 2 ^ P.ptrBits - 4095) ∧
    d.arg = (K.sys_ioctl s fd .ION_IOC_ALLOC
      { len := len, align := align, flags := flags, handle := 0 }).arg := by
  intro d r
  have hw12 : 12 ≤ P.ptrBits := by omega
  have h13 : 2 ^ 13 ≤ 2 ^ P.ptrBits := Nat.pow_le_pow_right (by norm_num) hw
  have hpow : (2 : Nat) ^ 13 = 8192 := by norm_num
  have hiff := IS_ERR_OR_NULL_iff P hw12
  have hok : ∀ (h : 0 ≤ d.ret) (hp : IS_ERR_OR_NULL P d.arg.handle = false),
      r.ret = d.ret ∧ r.st.handle = d.arg.handle ∧
      (s.since r.st).filter Event.isStore = [Event.store_handle d.arg.handle] := by
    intro h hp
    have hr : r = _ := ion_alloc_of_ok P K s fd len align flags h hp
    obtain ⟨evs, ht, hev⟩ := ion_ioctl_trace K s fd .ION_IOC_ALLOC
      { len := len, align := align, flags := flags, handle := 0 }
    refine ⟨by rw [hr], by rw [hr]; rfl, ?_⟩
    have htr : r.st.trace = s.trace ++
        (Event.sys_ioctl fd .ION_IOC_ALLOC
            { len := len, align := align, flags := flags, handle := 0 } :: evs
          ++ [Event.store_handle d.arg.handle]) := by
      rw [hr]
      simp only [State.set_handle, ht]
      simp
    rw [since_append s r.st _ htr]
    have hnone : evs.filter Event.isStore = [] := by
      rw [List.filter_eq_nil_iff]
      intro e he
      simp [(hev e he).1]
    simp [List.filter_cons, List.filter_append, Event.isStore, hnone]
  refine ⟨hiff, ?_, ?_, ?_, hok, ?_, ion_ioctl_arg K s fd .ION_IOC_ALLOC _⟩
  · exact (hiff _).mpr (Or.inr le_rfl)
  · rw [IS_ERR_OR_NULL_false_iff P hw12]
    omega
  · intro h hp
    have hr : r = _ := ion_alloc_of_err P K s fd len align flags h hp
    rw [hr]
  · intro hsucc
    by_cases h : d.ret < 0
    · have hr : r = _ := ion_alloc_of_neg P K s fd len align flags h
      rw [hr] at hsucc
      exact absurd hsucc (not_le.mpr h)
    · have h0 : 0 ≤ d.ret := not_lt.mp h
      cases hp : IS_ERR_OR_NULL P d.arg.handle
      · obtain ⟨_, hh, _⟩ := hok h0 hp
        have := (IS_ERR_OR_NULL_false_iff P hw12 _).mp hp
        exact ⟨hh, by rw [hh]; exact this.1, by rw [hh]; exact this.2⟩
      · have hr : r = _ := ion_alloc_of_err P K s fd len align flags h0 hp
        rw [hr] at hsucc
        have hneg : ¬ (0 : Int) ≤ -EINVAL := by decide
        exact absurd hsucc hneg

/-- Witness for C1 on the 32-bit platform: the handle `2^32 - 4095` returned
with status `0` makes `ion_alloc` fail with `-22`, and the handle `0x1000`
returned with status `0` is stored and the call returns `0`. -/
theorem ion_alloc_validates_handle_witness :
    (ion_alloc arm32 errPtrScript.kernel st0 3 4096 4096 1).ret = -22 ∧
    ((ion_alloc arm32 okScript.kernel st0 3 4096 4096 1).ret = 0 ∧
     (ion_alloc arm32 okScript.kernel st0 3 4096 4096 1).st.handle = 4096) ∧
    ((ion_alloc arm32 okScript.kernel st0 3 4096 4096 1).st.handle ≠ 0 ∧
     (ion_alloc arm32 okScript.kernel st0 3 4096 4096 1).st.handle < 2 ^ 32 - 4095) :=
  ⟨(ion_alloc_validates_handle arm32 errPtrScript.kernel st0 3 4096 4096 1
      (by decide)).2.2.2.1 (by decide) (by decide),
   ⟨((ion_alloc_validates_handle arm32 okScript.kernel st0 3 4096 4096 1
      (by decide)).2.2.2.2.1 (by decide) (by decide)).1,
    ((ion_alloc_validates_handle arm32 okScript.kernel st0 3 4096 4096 1
      (by decide)).2.2.2.2.1 (by decide) (by decide)).2.1⟩,
   ((ion_alloc_validates_handle arm32 okScript.kernel st0 3 4096 4096 1
      (by decide)).2.2.2.2.2.1 (by decide)).2⟩

/-! ## Failure of the dispatch -/

theorem passedThrough_of_eq (K : Kernel) (s : State) (fd : Int) (req : Req)
    (arg : req.Buf) (r : Outcome)
    (h : r = { ret := (ion_ioctl K s fd req arg).ret, st := (ion_ioctl K s fd req arg).st }) :
    PassedThrough s (ion_ioctl K s fd req arg) r := by
  subst h
  exact ⟨rfl, rfl, ion_ioctl_untouched K s fd req arg⟩

/-- C3: for each of `ion_alloc`, `ion_alloc_tiler`, `ion_free`, `ion_map`,
`ion_map_cacheable`, `ion_share` and `ion_import`, whenever its dispatch
returns a negative code, the operation returns exactly that code and stops in
the state the dispatcher left: no out-parameter (`*handle`, `*stride`, `*ptr`,
`*map_fd`, `*share_fd`) is written and `mmap` is not called. -/
theorem dispatch_failure_passed_through (P : Platform) (K : Kernel) (s : State) (fd : Int)
    (len align aflags : Nat) (w h : Nat) (fmt : Int) (tflags : Nat)
    (handle length : Nat) (prot mflags offset : Int) (share_fd : Int) :
    (let d := ion_ioctl K s fd .ION_IOC_ALLOC
        { len := len, align := align, flags := aflags, handle := 0 };
      d.ret < 0 → PassedThrough s d (ion_alloc P K s fd len align aflags)) ∧
    (let d := ion_ioctl K s fd .ION_IOC_CUSTOM
        { cmd := P.OMAP_ION_TILER_ALLOC,
          arg := { w := w, h := h, fmt := fmt, flags := tflags, handle := 0, stride := 0,
                   out_align := P.PAGE_SIZE, token := 0 } };
      d.ret < 0 → PassedThrough s d (ion_alloc_tiler P K s fd w h fmt tflags)) ∧
    (let d := ion_ioctl K s fd .ION_IOC_FREE { handle := handle };
      d.ret < 0 → PassedThrough s d (ion_free K s fd handle)) ∧
    (let d := ion_ioctl K s fd .ION_IOC_MAP { handle := handle, fd := 0, cacheable := 0 };
      d.ret < 0 → PassedThrough s d (ion_map P K s fd handle length prot mflags offset)) ∧
    (let d := ion_ioctl K s fd .ION_IOC_MAP { handle := handle, fd := 0, cacheable := 1 };
      d.ret < 0 →
        PassedThrough s d (ion_map_cacheable P K s fd handle length prot mflags offset)) ∧
    (let d := ion_ioctl K s fd .ION_IOC_SHARE { handle := handle, fd := 0, cacheable := 0 };
      d.ret < 0 → PassedThrough s d (ion_share K s fd handle)) ∧
    (let d := ion_ioctl K s fd .ION_IOC_IMPORT { handle := 0, fd := share_fd, cacheable := 0 };
      d.ret < 0 → PassedThrough s d (ion_import K s fd share_fd)) := by
  refine ⟨?_, ?_, ?_, ?_, ?_, ?_, ?_⟩ <;> intro d hd <;>
    apply passedThrough_of_eq
  · exact ion_alloc_of_neg P K s fd len align aflags hd
  · exact ion_alloc_tiler_of_neg P K s fd w h fmt tflags _ rfl hd
  · exact ion_free_eq K s fd handle
  · exact ion_map_of_neg P K s fd handle length prot mflags offset hd
  · exact ion_map_cacheable_of_neg P K s fd handle length prot mflags offset hd
  · exact ion_share_of_neg K s fd handle _ rfl hd
  · exact ion_import_of_neg K s fd share_fd _ rfl hd

/-- Witness for C3: on the subsystem that fails every `ioctl` with `errno = 13`
each of the seven operations returns `-13`, and `ion_map` ends in the state
the dispatcher left. -/
theorem dispatch_failure_passed_through_witness :
    (ion_alloc arm32 denyScript.kernel st0 3 4096 4096 1).ret = -13 ∧
    (ion_alloc_tiler arm32 denyScript.kernel st0 3 64 64 1 0).ret = -13 ∧
    (ion_free denyScript.kernel st0 3 4096).ret = -13 ∧
    (ion_map arm32 denyScript.kernel st0 3 4096 8192 3 1 0).ret = -13 ∧
    (ion_map_cacheable arm32 denyScript.kernel st0 3 4096 8192 3 1 0).ret = -13 ∧
    (ion_share denyScript.kernel st0 3 4096).ret = -13 ∧
    (ion_import denyScript.kernel st0 3 7).ret = -13 ∧
    Untouched st0 (ion_map arm32 denyScript.kernel st0 3 4096 8192 3 1 0).st :=
  have t := dispatch_failure_passed_through arm32 denyScript.kernel st0 3
    4096 4096 1 64 64 1 0 4096 8192 3 1 0 7
  ⟨(t.1 (by decide)).1, (t.2.1 (by decide)).1, (t.2.2.1 (by decide)).1,
   (t.2.2.2.1 (by decide)).1, (t.2.2.2.2.1 (by decide)).1,
   (t.2.2.2.2.2.1 (by decide)).1, (t.2.2.2.2.2.2 (by decide)).1,
   (t.2.2.2.1 (by decide)).2.2⟩

/-! ## Mapping -/

/-- C4: `ion_map` and `ion_map_cacheable` called with the same arguments each
dispatch exactly one `ION_IOC_MAP` request, and the two request records are
equal except for `cacheable`, which is `0` for `ion_map` and `1` for
`ion_map_cacheable`.  Whenever the subsystem answers the two runs alike (same
`ioctl` status, same `errno`, same descriptor in the response, same answer of
`mmap`, and the same `errno` after the diagnostic of a failed `ioctl` and of a
failed `mmap`), both functions return the same code, leave the same values in
`*ptr` and `*map_fd`, and perform the same stores. -/
theorem ion_map_cacheable_same_algorithm (P : Platform) (K0 K1 : Kernel) (s : State)
    (fd : Int) (handle length : Nat) (prot flags offset : Int) :
    let q0 : ion_fd_data := { handle := handle, fd := 0, cacheable := 0 }
    let q1 : ion_fd_data := { handle := handle, fd := 0, cacheable := 1 }
    let a0 := K0.sys_ioctl s fd .ION_IOC_MAP q0
    let a1 := K1.sys_ioctl s fd .ION_IOC_MAP q1
    let d0 := ion_ioctl K0 s fd .ION_IOC_MAP q0
    let d1 := ion_ioctl K1 s fd .ION_IOC_MAP q1
    let m0 := K0.sys_mmap (d0.st.set_map_fd d0.arg.fd) NULL length prot flags d0.arg.fd offset
    let m1 := K1.sys_mmap (d1.st.set_map_fd d1.arg.fd) NULL length prot flags d1.arg.fd offset
    let r0 := ion_map P K0 s fd handle length prot flags offset
    let r1 := ion_map_cacheable P K1 s fd handle length prot flags offset
    ((s.since r0.st).filter Event.isIoctl = [Event.sys_ioctl fd .ION_IOC_MAP q0] ∧
     (s.since r1.st).filter Event.isIoctl = [Event.sys_ioctl fd .ION_IOC_MAP q1] ∧
     q1 = { q0 with cacheable := 1 } ∧ q0.cacheable = 0) ∧
    (a0.ret = a1.ret → a0.errno = a1.errno → a0.arg.fd = a1.arg.fd → m0 = m1 →
     (a0.ret < 0 →
       K0.log_errno (dispatched s fd .ION_IOC_MAP q0 a0)
           (.ioctl_failed .ION_IOC_MAP a0.ret a0.errno fd)
         = K1.log_errno (dispatched s fd .ION_IOC_MAP q1 a1)
           (.ioctl_failed .ION_IOC_MAP a1.ret a1.errno fd)) →
     (m0.ptr = MAP_FAILED P →
       K0.log_errno (mapped (d0.st.set_map_fd d0.arg.fd) length prot flags d0.arg.fd offset m0)
           (.mmap_failed (some "ion_map") m0.errno)
         = K1.log_errno
           (mapped (d1.st.set_map_fd d1.arg.fd) length prot flags d1.arg.fd offset m1)
           (.mmap_failed none m1.errno)) →
     r0.ret = r1.ret ∧ r0.st.ptr = r1.st.ptr ∧ r0.st.map_fd = r1.st.map_fd ∧
     (s.since r0.st).filter Event.isStore = (s.since r1.st).filter Event.isStore) := by
  intro q0 q1 a0 a1 d0 d1 m0 m1 r0 r1
  refine ⟨⟨ion_map_requests P K0 s fd handle length prot flags offset,
    ion_map_cacheable_requests P K1 s fd handle length prot flags offset, rfl, rfl⟩, ?_⟩
  intro hret _ hfd hmmap hlogA hlogM
  have hd : d0.ret = d1.ret := by
    by_cases hn : a0.ret < 0
    · have e0 : d0.ret = _ := (ion_ioctl_neg K0 s fd .ION_IOC_MAP q0 hn).1
      have e1 : d1.ret = _ := (ion_ioctl_neg K1 s fd .ION_IOC_MAP q1 (hret ▸ hn)).1
      rw [e0, e1]
      exact congrArg Neg.neg (hlogA hn)
    · have e0 : d0.ret = _ := ion_ioctl_nonneg K0 s fd .ION_IOC_MAP q0 (not_lt.mp hn)
      have e1 : d1.ret = _ := ion_ioctl_nonneg K1 s fd .ION_IOC_MAP q1 (hret ▸ not_lt.mp hn)
      rw [e0, e1]
      exact hret
  have ha : d0.arg.fd = d1.arg.fd := by
    have e0 : d0.arg = _ := ion_ioctl_arg K0 s fd .ION_IOC_MAP q0
    have e1 : d1.arg = _ := ion_ioctl_arg K1 s fd .ION_IOC_MAP q1
    rw [e0, e1]
    exact hfd
  by_cases hn : d0.ret < 0
  · obtain ⟨x1, _, x3, x4, x5, _⟩ :=
      ion_map_neg_facts P K0 s fd handle length prot flags offset d0 r0 rfl rfl hn
    obtain ⟨y1, _, y3, y4, y5, _⟩ :=
      ion_map_cacheable_neg_facts P K1 s fd handle length prot flags offset d1 r1 rfl rfl
        (hd ▸ hn)
    exact ⟨by rw [x1, y1, hd], by rw [x3, y3], by rw [x4, y4], by rw [x5, y5]⟩
  · have h0 : 0 ≤ d0.ret := not_lt.mp hn
    by_cases hf : d0.arg.fd < 0
    · obtain ⟨x1, x2, x3, x4, _⟩ :=
        ion_map_neg_fd_facts P K0 s fd handle length prot flags offset d0 r0 rfl rfl h0 hf
      obtain ⟨y1, y2, y3, y4, _⟩ :=
        ion_map_cacheable_neg_fd_facts P K1 s fd handle length prot flags offset d1 r1
          rfl rfl (hd ▸ h0) (ha ▸ hf)
      exact ⟨by rw [x1, y1], by rw [x2, y2], by rw [x3, y3, ha], by rw [x4, y4, ha]⟩
    · obtain ⟨x1, _, x3, x4, x5, _⟩ :=
        ion_map_mmap_facts P K0 s fd handle length prot flags offset d0 r0 m0 rfl rfl rfl
          h0 (not_lt.mp hf)
      obtain ⟨y1, _, y3, y4, y5, _⟩ :=
        ion_map_cacheable_mmap_facts P K1 s fd handle length prot flags offset d1 r1 m1
          rfl rfl rfl (hd ▸ h0) (ha ▸ not_lt.mp hf)
      have hptr : m0.ptr = m1.ptr := congrArg MmapRet.ptr hmmap
      refine ⟨?_, by rw [x3, y3, hptr], by rw [x4, y4, ha], by rw [x5, y5, hptr, ha]⟩
      rw [x1, y1]
      by_cases hp : m0.ptr = MAP_FAILED P
      · rw [if_pos hp, if_pos (hptr ▸ hp)]
        exact congrArg Neg.neg (hlogM hp)
      · rw [if_neg hp, if_neg (hptr ▸ hp)]
        exact hd

/-- Witness for C4: against the accepting subsystem both functions return `0`,
map at `0x40000000` and report descriptor `7`; against the subsystem on which
`mmap` fails both return the same code. -/
theorem ion_map_cacheable_same_algorithm_witness :
    ((ion_map arm32 okScript.kernel st0 3 4096 8192 3 1 0).ret
        = (ion_map_cacheable arm32 okScript.kernel st0 3 4096 8192 3 1 0).ret ∧
      (ion_map arm32 okScript.kernel st0 3 4096 8192 3 1 0).st.ptr
        = (ion_map_cacheable arm32 okScript.kernel st0 3 4096 8192 3 1 0).st.ptr ∧
      (ion_map arm32 okScript.kernel st0 3 4096 8192 3 1 0).st.map_fd
        = (ion_map_cacheable arm32 okScript.kernel st0 3 4096 8192 3 1 0).st.map_fd) ∧
    (ion_map arm32 mmapFailScript.kernel st0 3 4096 8192 3 1 0).ret
      = (ion_map_cacheable arm32 mmapFailScript.kernel st0 3 4096 8192 3 1 0).ret :=
  have t := (ion_map_cacheable_same_algorithm arm32 okScript.kernel okScript.kernel st0 3
    4096 8192 3 1 0).2 rfl rfl rfl rfl (fun _ => rfl) (fun _ => rfl)
  have u := (ion_map_cacheable_same_algorithm arm32 mmapFailScript.kernel
    mmapFailScript.kernel st0 3 4096 8192 3 1 0).2 rfl rfl rfl rfl (fun _ => rfl)
    (fun _ => rfl)
  ⟨⟨t.1, t.2.1, t.2.2.1⟩, u.1⟩

/-- C5: for `ion_map`, `ion_map_cacheable` and `ion_share`, whenever the
dispatch returns a non-negative status and the descriptor in the response is
negative, the operation returns `-EINVAL`, and the two map operations do so
without any call of `mmap`.  Whenever the dispatch returns a non-negative
status and the descriptor in the response is non-negative, `ion_share`
succeeds (it returns the non-negative status of the dispatch) and `*share_fd`
equals that descriptor. -/
theorem negative_descriptor_rejected (P : Platform) (K : Kernel) (s : State) (fd : Int)
    (handle length : Nat) (prot flags offset : Int) :
    (let d := ion_ioctl K s fd .ION_IOC_MAP { handle := handle, fd := 0, cacheable := 0 };
     let r := ion_map P K s fd handle length prot flags offset;
     0 ≤ d.ret → d.arg.fd < 0 →
       r.ret = -EINVAL ∧ (s.since r.st).filter Event.isMmap = []) ∧
    (let d := ion_ioctl K s fd .ION_IOC_MAP { handle := handle, fd := 0, cacheable := 1 };
     let r := ion_map_cacheable P K s fd handle length prot flags offset;
     0 ≤ d.ret → d.arg.fd < 0 →
       r.ret = -EINVAL ∧ (s.since r.st).filter Event.isMmap = []) ∧
    (let d := ion_ioctl K s fd .ION_IOC_SHARE { handle := handle, fd := 0, cacheable := 0 };
     let r := ion_share K s fd handle;
     (0 ≤ d.ret → d.arg.fd < 0 → r.ret = -EINVAL) ∧
     (0 ≤ d.ret → 0 ≤ d.arg.fd → 0 ≤ r.ret ∧ r.ret = d.ret ∧ r.st.share_fd = d.arg.fd)) := by
  refine ⟨?_, ?_, ?_, ?_⟩
  · intro d r h hf
    obtain ⟨a1, _, _, _, a5⟩ :=
      ion_map_neg_fd_facts P K s fd handle length prot flags offset d r rfl rfl h hf
    exact ⟨a1, a5⟩
  · intro d r h hf
    obtain ⟨a1, _, _, _, a5⟩ :=
      ion_map_cacheable_neg_fd_facts P K s fd handle length prot flags offset d r rfl rfl h hf
    exact ⟨a1, a5⟩
  · intro h hf
    exact (ion_share_neg_fd_facts K s fd handle _ _ rfl rfl h hf).1
  · intro h hf
    rw [ion_share_of_ok K s fd handle _ rfl h hf]
    exact ⟨h, rfl, rfl⟩

/-- Witness for C5: with status `0` and descriptor `-1` the three operations
return `-22`; with status `0` and descriptor `7`, `ion_share` returns `0` and
`*share_fd` is `7`. -/
theorem negative_descriptor_rejected_witness :
    (ion_map arm32 negFdScript.kernel st0 3 4096 8192 3 1 0).ret = -22 ∧
    (ion_map_cacheable arm32 negFdScript.kernel st0 3 4096 8192 3 1 0).ret = -22 ∧
    (ion_share negFdScript.kernel st0 3 4096).ret = -22 ∧
    ((ion_share okScript.kernel st0 3 4096).ret = 0 ∧
     (ion_share okScript.kernel st0 3 4096).st.share_fd = 7) :=
  have t := negative_descriptor_rejected arm32 negFdScript.kernel st0 3 4096 8192 3 1 0
  have u := negative_descriptor_rejected arm32 okScript.kernel st0 3 4096 8192 3 1 0
  ⟨(t.1 (by decide) (by decide)).1, (t.2.1 (by decide) (by decide)).1,
   t.2.2.1 (by decide) (by decide),
   (u.2.2.2 (by decide) (by decide)).2⟩

/-- C6, as stated, fails in the `MAP_FAILED` branch: `mmap` answers
`MAP_FAILED` with `errno = 12`, the diagnostic emitted before `errno` is read
leaves `5` there, and `ion_map` and `ion_map_cacheable` return `-5`, not
`-12`. -/
theorem ion_map_reads_errno_after_log :
    (mmapFailClobberScript.kernel.sys_mmap st0 0 8192 3 1 7 0).ptr = MAP_FAILED arm32 ∧
    (mmapFailClobberScript.kernel.sys_mmap st0 0 8192 3 1 7 0).errno = 12 ∧
    (ion_map arm32 mmapFailClobberScript.kernel st0 3 4096 8192 3 1 0).ret = -5 ∧
    (ion_map_cacheable arm32 mmapFailClobberScript.kernel st0 3 4096 8192 3 1 0).ret = -5 ∧
    (ion_map arm32 mmapFailClobberScript.kernel st0 3 4096 8192 3 1 0).ret
      ≠ -(mmapFailClobberScript.kernel.sys_mmap st0 0 8192 3 1 7 0).errno := by
  decide

/-- C6, amended: for `ion_map` and `ion_map_cacheable`, whenever the dispatch
returns a non-negative status `s` and the response descriptor `d` is
non-negative, `mmap` is called exactly once, with address hint `NULL`, the
length, `prot`, `flags` and `offset` of the caller, and descriptor `d`.  If it
answers `MAP_FAILED` the operation returns the negated value that `errno`
holds after the diagnostic was emitted; this is the negated error code of
`mmap` whenever the diagnostic leaves `errno` as it found it.  Otherwise the
operation returns `s`, `*ptr` is the answer of `mmap` and `*map_fd` is `d`.
The response record is the buffer as `ioctl` left it. -/
theorem ion_map_mmap_step (P : Platform) (K : Kernel) (s : State) (fd : Int)
    (handle length : Nat) (prot flags offset : Int) :
    (let d := ion_ioctl K s fd .ION_IOC_MAP { handle := handle, fd := 0, cacheable := 0 };
     let r := ion_map P K s fd handle length prot flags offset;
     let m := K.sys_mmap (d.st.set_map_fd d.arg.fd) NULL length prot flags d.arg.fd offset;
     let t := mapped (d.st.set_map_fd d.arg.fd) length prot flags d.arg.fd offset m;
     0 ≤ d.ret → 0 ≤ d.arg.fd →
       (s.since r.st).filter Event.isMmap
         = [Event.sys_mmap NULL length prot flags d.arg.fd offset] ∧
       (m.ptr = MAP_FAILED P →
         r.ret = -r.st.errno ∧
         r.st.errno = K.log_errno t (.mmap_failed (some "ion_map") m.errno) ∧
         (LogKeepsErrno K t (.mmap_failed (some "ion_map") m.errno) →
           r.ret = -m.errno ∧ r.st.errno = m.errno)) ∧
       (m.ptr ≠ MAP_FAILED P → r.ret = d.ret ∧ r.st.ptr = m.ptr ∧ r.st.map_fd = d.arg.fd)) ∧
    (let d := ion_ioctl K s fd .ION_IOC_MAP { handle := handle, fd := 0, cacheable := 1 };
     let r := ion_map_cacheable P K s fd handle length prot flags offset;
     let m := K.sys_mmap (d.st.set_map_fd d.arg.fd) NULL length prot flags d.arg.fd offset;
     let t := mapped (d.st.set_map_fd d.arg.fd) length prot flags d.arg.fd offset m;
     0 ≤ d.ret → 0 ≤ d.arg.fd →
       (s.since r.st).filter Event.isMmap
         = [Event.sys_mmap NULL length prot flags d.arg.fd offset] ∧
       (m.ptr = MAP_FAILED P →
         r.ret = -r.st.errno ∧
         r.st.errno = K.log_errno t (.mmap_failed none m.errno) ∧
         (LogKeepsErrno K t (.mmap_failed none m.errno) →
           r.ret = -m.errno ∧ r.st.errno = m.errno)) ∧
       (m.ptr ≠ MAP_FAILED P → r.ret = d.ret ∧ r.st.ptr = m.ptr ∧ r.st.map_fd = d.arg.fd)) ∧
    (ion_ioctl K s fd .ION_IOC_MAP { handle := handle, fd := 0, cacheable := 0 }).arg
      = (K.sys_ioctl s fd .ION_IOC_MAP { handle := handle, fd := 0, cacheable := 0 }).arg ∧
    (ion_ioctl K s fd .ION_IOC_MAP { handle := handle, fd := 0, cacheable := 1 }).arg
      = (K.sys_ioctl s fd .ION_IOC_MAP { handle := handle, fd := 0, cacheable := 1 }).arg := by
  refine ⟨?_, ?_, ion_ioctl_arg K s fd .ION_IOC_MAP _, ion_ioctl_arg K s fd .ION_IOC_MAP _⟩
  · intro d r m t h hf
    obtain ⟨a1, a2, a3, a4, _, a6⟩ :=
      ion_map_mmap_facts P K s fd handle length prot flags offset d r m rfl rfl rfl h hf
    refine ⟨a6, fun hp => ?_, fun hp => ⟨?_, a3, a4⟩⟩
    · rw [if_pos hp] at a1 a2
      refine ⟨by rw [a1, a2], a2, fun hk => ?_⟩
      have hk2 : K.log_errno t _ = m.errno := hk
      exact ⟨by rw [a1]; exact congrArg Neg.neg hk2, by rw [a2]; exact hk2⟩
    · rw [a1, if_neg hp]
  · intro d r m t h hf
    obtain ⟨a1, a2, a3, a4, _, a6⟩ :=
      ion_map_cacheable_mmap_facts P K s fd handle length prot flags offset d r m rfl rfl rfl h hf
    refine ⟨a6, fun hp => ?_, fun hp => ⟨?_, a3, a4⟩⟩
    · rw [if_pos hp] at a1 a2
      refine ⟨by rw [a1, a2], a2, fun hk => ?_⟩
      have hk2 : K.log_errno t _ = m.errno := hk
      exact ⟨by rw [a1]; exact congrArg Neg.neg hk2, by rw [a2]; exact hk2⟩
    · rw [a1, if_neg hp]

/-- Witness for C6 (amended): against the accepting subsystem both map
functions return `0` with `*ptr = 0x40000000` and `*map_fd = 7`; when `mmap`
answers `MAP_FAILED` with `errno = 12` and the diagnostic leaves `errno`
alone, both return `-12`. -/
theorem ion_map_mmap_step_witness :
    ((ion_map arm32 okScript.kernel st0 3 4096 8192 3 1 0).ret = 0 ∧
     (ion_map arm32 okScript.kernel st0 3 4096 8192 3 1 0).st.ptr = 1073741824 ∧
     (ion_map arm32 okScript.kernel st0 3 4096 8192 3 1 0).st.map_fd = 7) ∧
    ((ion_map_cacheable arm32 okScript.kernel st0 3 4096 8192 3 1 0).ret = 0 ∧
     (ion_map_cacheable arm32 okScript.kernel st0 3 4096 8192 3 1 0).st.ptr = 1073741824 ∧
     (ion_map_cacheable arm32 okScript.kernel st0 3 4096 8192 3 1 0).st.map_fd = 7) ∧
    (ion_map arm32 mmapFailScript.kernel st0 3 4096 8192 3 1 0).ret = -12 ∧
    (ion_map_cacheable arm32 mmapFailScript.kernel st0 3 4096 8192 3 1 0).ret = -12 :=
  have t := ion_map_mmap_step arm32 okScript.kernel st0 3 4096 8192 3 1 0
  have u := ion_map_mmap_step arm32 mmapFailScript.kernel st0 3 4096 8192 3 1 0
  ⟨(t.1 (by decide) (by decide)).2.2 (by decide),
   (t.2.1 (by decide) (by decide)).2.2 (by decide),
   (((u.1 (by decide) (by decide)).2.1 (by decide)).2.2 rfl).1,
   (((u.2.1 (by decide) (by decide)).2.1 (by decide)).2.2 rfl).1⟩

/-! ## Tiler allocation and import -/

/-- C7: for every `w`, `h`, `fmt`, `flags`, `ion_alloc_tiler` dispatches exactly
one request, with opcode `ION_IOC_CUSTOM`, sub-command `OMAP_ION_TILER_ALLOC`
and payload `w`, `h`, `fmt`, `flags`, `out_align = PAGE_SIZE`, `token = 0`
(handle and stride zeroed).  Whenever the dispatch returns a non-negative
status the operation returns it, and `*handle` and `*stride` are exactly the
handle and the stride found in the payload after the call, whatever the
handle is: in particular also when `IS_ERR_OR_NULL` holds of it.  The payload
after the call is the payload as `ioctl` left it. -/
theorem ion_alloc_tiler_contract (P : Platform) (K : Kernel) (s : State) (fd : Int)
    (w h : Nat) (fmt : Int) (flags : Nat) :
    let q : ion_custom_data :=
      { cmd := P.OMAP_ION_TILER_ALLOC,
        arg := { w := w, h := h, fmt := fmt, flags := flags, handle := 0, stride := 0,
                 out_align := P.PAGE_SIZE, token := 0 } }
    let d := ion_ioctl K s fd .ION_IOC_CUSTOM q
    let r := ion_alloc_tiler P K s fd w h fmt flags
    (s.since r.st).filter Event.isIoctl = [Event.sys_ioctl fd .ION_IOC_CUSTOM q] ∧
    (0 ≤ d.ret →
      0 ≤ r.ret ∧ r.ret = d.ret ∧
      r.st.handle = d.arg.arg.handle ∧ r.st.stride = d.arg.arg.stride) ∧
    (0 ≤ d.ret → IS_ERR_OR_NULL P d.arg.arg.handle = true →
      0 ≤ r.ret ∧ r.st.handle = d.arg.arg.handle) ∧
    d.arg = (K.sys_ioctl s fd .ION_IOC_CUSTOM q).arg := by
  intro q d r
  have hok : 0 ≤ d.ret → 0 ≤ r.ret ∧ r.ret = d.ret ∧
      r.st.handle = d.arg.arg.handle ∧ r.st.stride = d.arg.arg.stride := by
    intro h0
    have e : r = _ := ion_alloc_tiler_of_ok P K s fd w h fmt flags d rfl h0
    rw [e]
    exact ⟨h0, rfl, rfl, rfl⟩
  exact ⟨ion_alloc_tiler_requests P K s fd w h fmt flags, hok,
    fun h0 _ => ⟨(hok h0).1, (hok h0).2.2.1⟩, ion_ioctl_arg K s fd .ION_IOC_CUSTOM q⟩

/-- Witness for C7: `w = 64`, `h = 64`, `fmt = 1`, `flags = 0` against the
subsystem whose stride is the width rounded up to 4096 returns status `0`,
handle `0x1000` and stride `4096`; against subsystems answering the null
handle or the error pointer `2^32 - 4095` the call still returns `0` and hands
that value out. -/
theorem ion_alloc_tiler_contract_witness :
    ((ion_alloc_tiler arm32 okScript.kernel st0 3 64 64 1 0).ret = 0 ∧
     (ion_alloc_tiler arm32 okScript.kernel st0 3 64 64 1 0).st.handle = 4096 ∧
     (ion_alloc_tiler arm32 okScript.kernel st0 3 64 64 1 0).st.stride = 4096) ∧
    (0 ≤ (ion_alloc_tiler arm32 nullScript.kernel st0 3 64 64 1 0).ret ∧
     (ion_alloc_tiler arm32 nullScript.kernel st0 3 64 64 1 0).st.handle = 0) ∧
    (0 ≤ (ion_alloc_tiler arm32 errPtrScript.kernel st0 3 64 64 1 0).ret ∧
     (ion_alloc_tiler arm32 errPtrScript.kernel st0 3 64 64 1 0).st.handle = 4294963201) :=
  ⟨((ion_alloc_tiler_contract arm32 okScript.kernel st0 3 64 64 1 0).2.1 (by decide)).2,
   (ion_alloc_tiler_contract arm32 nullScript.kernel st0 3 64 64 1 0).2.2.1
     (by decide) (by decide),
   (ion_alloc_tiler_contract arm32 errPtrScript.kernel st0 3 64 64 1 0).2.2.1
     (by decide) (by decide)⟩

/-- C8: for every share descriptor, `ion_import` dispatches exactly one
request, with opcode `ION_IOC_IMPORT` and that descriptor in the `fd` field.
Whenever the dispatch returns a non-negative status the operation returns it
and `*handle` is the handle found in the response, whatever its value.
`ion_alloc` differs: there is a subsystem (one answering status `0` and the
null handle) on which `ion_import` succeeds and hands out a handle of which
`IS_ERR_OR_NULL` holds, while `ion_alloc` receiving the same handle returns
`-EINVAL`.  The response record is the buffer as `ioctl` left it. -/
theorem ion_import_contract (P : Platform) (K : Kernel) (s : State) (fd : Int)
    (share_fd : Int) (len align flags : Nat) :
    let q : ion_fd_data := { handle := 0, fd := share_fd, cacheable := 0 }
    let d := ion_ioctl K s fd .ION_IOC_IMPORT q
    let r := ion_import K s fd share_fd
    ((s.since r.st).filter Event.isIoctl = [Event.sys_ioctl fd .ION_IOC_IMPORT q] ∧
      q.fd = share_fd) ∧
    (0 ≤ d.ret → 0 ≤ r.ret ∧ r.ret = d.ret ∧ r.st.handle = d.arg.handle) ∧
    (∃ K1 : Kernel,
      (ion_ioctl K1 s fd .ION_IOC_IMPORT q).arg.handle
        = (ion_ioctl K1 s fd .ION_IOC_ALLOC
            { len := len, align := align, flags := flags, handle := 0 }).arg.handle ∧
      IS_ERR_OR_NULL P (ion_ioctl K1 s fd .ION_IOC_IMPORT q).arg.handle = true ∧
      0 ≤ (ion_import K1 s fd share_fd).ret ∧
      (ion_import K1 s fd share_fd).st.handle
        = (ion_ioctl K1 s fd .ION_IOC_IMPORT q).arg.handle ∧
      (ion_alloc P K1 s fd len align flags).ret = -EINVAL) ∧
    d.arg = (K.sys_ioctl s fd .ION_IOC_IMPORT q).arg := by
  intro q d r
  have hok : 0 ≤ d.ret → 0 ≤ r.ret ∧ r.ret = d.ret ∧ r.st.handle = d.arg.handle := by
    intro h0
    have e : r = _ := ion_import_of_ok K s fd share_fd d rfl h0
    rw [e]
    exact ⟨h0, rfl, rfl⟩
  have hz : ∀ (req : Req) (arg : req.Buf),
      (ion_ioctl nullScript.kernel s fd req arg).ret = 0 :=
    fun req arg => script_dispatch_ret nullScript (by decide) s fd req arg
  refine ⟨⟨ion_import_requests K s fd share_fd, rfl⟩, hok,
    ⟨nullScript.kernel, rfl, rfl, ?_, ?_, ?_⟩, ion_ioctl_arg K s fd .ION_IOC_IMPORT q⟩
  · rw [ion_import_of_ok nullScript.kernel s fd share_fd _ rfl (hz _ _).ge]
    exact (hz _ _).ge
  · rw [ion_import_of_ok nullScript.kernel s fd share_fd _ rfl (hz _ _).ge]
    rfl
  · rw [ion_alloc_of_err P nullScript.kernel s fd len align flags (hz _ _).ge rfl]

/-- Witness for C8: importing descriptor `7` from the accepting subsystem
returns `0` and the handle `0x1000`. -/
theorem ion_import_contract_witness :
    0 ≤ (ion_import okScript.kernel st0 3 7).ret ∧
    (ion_import okScript.kernel st0 3 7).ret = 0 ∧
    (ion_import okScript.kernel st0 3 7).st.handle = 4096 :=
  (ion_import_contract arm32 okScript.kernel st0 3 7 4096 4096 1).2.1 (by decide)

/-! ## The error channel -/

/-- C9, as stated, fails for `ion_open` and `ion_close`: when `open` (or
`close`) answers `-1` and sets `errno` to `13`, `ion_open` (or `ion_close`)
returns `-1`, which is neither `-errno = -13` nor `-EINVAL = -22`.  It also
fails for an operation that goes through the dispatcher when the diagnostic
changes `errno`: `ioctl` fails with `errno = 13`, the diagnostic leaves `5`,
and `ion_free` returns `-5`, which is neither `-13` nor `-22`. -/
theorem ion_open_close_not_negated_errno :
    ((ion_open denyScript.kernel st0).ret = -1 ∧
     (ion_open denyScript.kernel st0).st.errno = 13 ∧
     (ion_open denyScript.kernel st0).ret ≠ -(ion_open denyScript.kernel st0).st.errno ∧
     (ion_open denyScript.kernel st0).ret ≠ -EINVAL) ∧
    ((ion_close denyScript.kernel st0 3).ret = -1 ∧
     (ion_close denyScript.kernel st0 3).st.errno = 13 ∧
     (ion_close denyScript.kernel st0 3).ret ≠ -(ion_close denyScript.kernel st0 3).st.errno ∧
     (ion_close denyScript.kernel st0 3).ret ≠ -EINVAL) ∧
    ((denyClobberScript.kernel.sys_ioctl st0 3 .ION_IOC_FREE { handle := 4096 }).ret = -1 ∧
     (denyClobberScript.kernel.sys_ioctl st0 3 .ION_IOC_FREE { handle := 4096 }).errno = 13 ∧
     (ion_free denyClobberScript.kernel st0 3 4096).ret = -5 ∧
     (ion_free denyClobberScript.kernel st0 3 4096).ret ≠ -13 ∧
     (ion_free denyClobberScript.kernel st0 3 4096).ret ≠ -EINVAL) := by
  decide

/-- C9, amended: each of `ion_alloc`, `ion_alloc_tiler`, `ion_free`, `ion_map`,
`ion_map_cacheable`, `ion_share` and `ion_import`, whenever it returns a
negative status, returns `-errno`, for the value `errno` holds when the
operation returns, or `-EINVAL`.  `ion_open` and `ion_close` return the status
of `open` and of `close` unchanged. -/
theorem failure_codes (P : Platform) (K : Kernel) (s : State) (fd : Int)
    (len align aflags : Nat) (w h : Nat) (fmt : Int) (tflags : Nat)
    (handle length : Nat) (prot mflags offset : Int) (share_fd : Int) :
    NegatedErrnoOrEINVAL (ion_alloc P K s fd len align aflags) ∧
    NegatedErrnoOrEINVAL (ion_alloc_tiler P K s fd w h fmt tflags) ∧
    NegatedErrnoOrEINVAL (ion_free K s fd handle) ∧
    NegatedErrnoOrEINVAL (ion_map P K s fd handle length prot mflags offset) ∧
    NegatedErrnoOrEINVAL (ion_map_cacheable P K s fd handle length prot mflags offset) ∧
    NegatedErrnoOrEINVAL (ion_share K s fd handle) ∧
    NegatedErrnoOrEINVAL (ion_import K s fd share_fd) ∧
    (ion_open K s).ret = (K.sys_open s "/dev/ion" O_RDWR).ret ∧
    (ion_close K s fd).ret = (K.sys_close s fd).ret := by
  refine ⟨ion_alloc_failure_code P K s fd len align aflags,
    ion_alloc_tiler_failure_code P K s fd w h fmt tflags,
    ion_free_failure_code K s fd handle,
    ion_map_failure_code P K s fd handle length prot mflags offset,
    ion_map_cacheable_failure_code P K s fd handle length prot mflags offset,
    ion_share_failure_code K s fd handle,
    ion_import_failure_code K s fd share_fd, ?_, rfl⟩
  unfold ion_open
  simp only []
  split <;> rfl

/-- Witness for C9 (amended): on the subsystem that fails every `ioctl` with
`errno = 13` the seven operations return a negative status, so that status is
`-errno` or `-EINVAL`; with a negative descriptor and with a failing `mmap`
the same holds of `ion_share` and `ion_map`. -/
theorem failure_codes_witness :
    ((ion_alloc arm32 denyScript.kernel st0 3 4096 4096 1).ret
        = -(ion_alloc arm32 denyScript.kernel st0 3 4096 4096 1).st.errno ∨
      (ion_alloc arm32 denyScript.kernel st0 3 4096 4096 1).ret = -EINVAL) ∧
    ((ion_alloc_tiler arm32 denyScript.kernel st0 3 64 64 1 0).ret
        = -(ion_alloc_tiler arm32 denyScript.kernel st0 3 64 64 1 0).st.errno ∨
      (ion_alloc_tiler arm32 denyScript.kernel st0 3 64 64 1 0).ret = -EINVAL) ∧
    ((ion_free denyScript.kernel st0 3 4096).ret
        = -(ion_free denyScript.kernel st0 3 4096).st.errno ∨
      (ion_free denyScript.kernel st0 3 4096).ret = -EINVAL) ∧
    ((ion_map arm32 denyScript.kernel st0 3 4096 8192 3 1 0).ret
        = -(ion_map arm32 denyScript.kernel st0 3 4096 8192 3 1 0).st.errno ∨
      (ion_map arm32 denyScript.kernel st0 3 4096 8192 3 1 0).ret = -EINVAL) ∧
    ((ion_map_cacheable arm32 denyScript.kernel st0 3 4096 8192 3 1 0).ret
        = -(ion_map_cacheable arm32 denyScript.kernel st0 3 4096 8192 3 1 0).st.errno ∨
      (ion_map_cacheable arm32 denyScript.kernel st0 3 4096 8192 3 1 0).ret = -EINVAL) ∧
    ((ion_share denyScript.kernel st0 3 4096).ret
        = -(ion_share denyScript.kernel st0 3 4096).st.errno ∨
      (ion_share denyScript.kernel st0 3 4096).ret = -EINVAL) ∧
    ((ion_import denyScript.kernel st0 3 7).ret
        = -(ion_import denyScript.kernel st0 3 7).st.errno ∨
      (ion_import denyScript.kernel st0 3 7).ret = -EINVAL) ∧
    ((ion_share negFdScript.kernel st0 3 4096).ret
        = -(ion_share negFdScript.kernel st0 3 4096).st.errno ∨
      (ion_share negFdScript.kernel st0 3 4096).ret = -EINVAL) ∧
    ((ion_map arm32 mmapFailScript.kernel st0 3 4096 8192 3 1 0).ret
        = -(ion_map arm32 mmapFailScript.kernel st0 3 4096 8192 3 1 0).st.errno ∨
      (ion_map arm32 mmapFailScript.kernel st0 3 4096 8192 3 1 0).ret = -EINVAL) :=
  have t := failure_codes arm32 denyScript.kernel st0 3 4096 4096 1 64 64 1 0 4096 8192 3 1 0 7
  have u := failure_codes arm32 negFdScript.kernel st0 3 4096 4096 1 64 64 1 0 4096 8192 3 1 0 7
  have v := failure_codes arm32 mmapFailScript.kernel st0 3 4096 4096 1 64 64 1 0 4096 8192 3 1
    0 7
  ⟨t.1 (by decide), t.2.1 (by decide), t.2.2.1 (by decide), t.2.2.2.1 (by decide),
   t.2.2.2.2.1 (by decide), t.2.2.2.2.2.1 (by decide), t.2.2.2.2.2.2.1 (by decide),
   u.2.2.2.2.2.1 (by decide), v.2.2.2.1 (by decide)⟩

/-! ## Out-parameters on failure -/

/-- C10: whenever `ion_alloc` returns a negative code, `*handle` is unchanged
and no store was performed.  `ion_map`, `ion_map_cacheable` and `ion_share`,
when they fail with `-EINVAL` because the response descriptor is negative,
have performed exactly one store, which put that negative descriptor in
`*map_fd` (respectively `*share_fd`).  `ion_map` and `ion_map_cacheable`, when
`mmap` answers `MAP_FAILED`, leave `*map_fd` holding the response descriptor
and `*ptr` holding `MAP_FAILED`. -/
theorem failure_atomicity (P : Platform) (K : Kernel) (s : State) (fd : Int)
    (len align aflags : Nat) (handle length : Nat) (prot flags offset : Int) :
    (let r := ion_alloc P K s fd len align aflags;
     r.ret < 0 → r.st.handle = s.handle ∧ (s.since r.st).filter Event.isStore = []) ∧
    (let d := ion_ioctl K s fd .ION_IOC_MAP { handle := handle, fd := 0, cacheable := 0 };
     let r := ion_map P K s fd handle length prot flags offset;
     0 ≤ d.ret → d.arg.fd < 0 →
       r.ret = -EINVAL ∧ r.st.map_fd = d.arg.fd ∧
       (s.since r.st).filter Event.isStore = [Event.store_map_fd d.arg.fd]) ∧
    (let d := ion_ioctl K s fd .ION_IOC_MAP { handle := handle, fd := 0, cacheable := 1 };
     let r := ion_map_cacheable P K s fd handle length prot flags offset;
     0 ≤ d.ret → d.arg.fd < 0 →
       r.ret = -EINVAL ∧ r.st.map_fd = d.arg.fd ∧
       (s.since r.st).filter Event.isStore = [Event.store_map_fd d.arg.fd]) ∧
    (let d := ion_ioctl K s fd .ION_IOC_SHARE { handle := handle, fd := 0, cacheable := 0 };
     let r := ion_share K s fd handle;
     0 ≤ d.ret → d.arg.fd < 0 →
       r.ret = -EINVAL ∧ r.st.share_fd = d.arg.fd ∧
       (s.since r.st).filter Event.isStore = [Event.store_share_fd d.arg.fd]) ∧
    (let d := ion_ioctl K s fd .ION_IOC_MAP { handle := handle, fd := 0, cacheable := 0 };
     let r := ion_map P K s fd handle length prot flags offset;
     let m := K.sys_mmap (d.st.set_map_fd d.arg.fd) NULL length prot flags d.arg.fd offset;
     0 ≤ d.ret → 0 ≤ d.arg.fd → m.ptr = MAP_FAILED P →
       r.st.map_fd = d.arg.fd ∧ r.st.ptr = MAP_FAILED P) ∧
    (let d := ion_ioctl K s fd .ION_IOC_MAP { handle := handle, fd := 0, cacheable := 1 };
     let r := ion_map_cacheable P K s fd handle length prot flags offset;
     let m := K.sys_mmap (d.st.set_map_fd d.arg.fd) NULL length prot flags d.arg.fd offset;
     0 ≤ d.ret → 0 ≤ d.arg.fd → m.ptr = MAP_FAILED P →
       r.st.map_fd = d.arg.fd ∧ r.st.ptr = MAP_FAILED P) := by
  refine ⟨?_, ?_, ?_, ?_, ?_, ?_⟩
  · intro r hneg
    exact ion_alloc_failure_frame P K s fd len align aflags hneg
  · intro d r h hf
    obtain ⟨a1, _, a3, a4, _⟩ :=
      ion_map_neg_fd_facts P K s fd handle length prot flags offset d r rfl rfl h hf
    exact ⟨a1, a3, a4⟩
  · intro d r h hf
    obtain ⟨a1, _, a3, a4, _⟩ :=
      ion_map_cacheable_neg_fd_facts P K s fd handle length prot flags offset d r rfl rfl h hf
    exact ⟨a1, a3, a4⟩
  · intro d r h hf
    exact ion_share_neg_fd_facts K s fd handle d r rfl rfl h hf
  · intro d r m h hf hp
    obtain ⟨a1, _, a3, a4, _⟩ :=
      ion_map_mmap_facts P K s fd handle length prot flags offset d r m rfl rfl rfl h hf
    exact ⟨a4, by rw [a3, hp]⟩
  · intro d r m h hf hp
    obtain ⟨a1, _, a3, a4, _⟩ :=
      ion_map_cacheable_mmap_facts P K s fd handle length prot flags offset d r m
        rfl rfl rfl h hf
    exact ⟨a4, by rw [a3, hp]⟩

/-- Witness for C10 on the 32-bit platform, starting with `*handle = 0`:
a failing `ion_alloc` leaves `*handle = 0`; with status `0` and descriptor
`-1` the map and share operations leave `-1` in `*map_fd` and `*share_fd`;
with `mmap` answering `MAP_FAILED` the map operations leave `*map_fd = 7` and
`*ptr = 2^32 - 1`. -/
theorem failure_atomicity_witness :
    (ion_alloc arm32 errPtrScript.kernel st0 3 4096 4096 1).st.handle = 0 ∧
    (ion_alloc arm32 denyScript.kernel st0 3 4096 4096 1).st.handle = 0 ∧
    (ion_map arm32 negFdScript.kernel st0 3 4096 8192 3 1 0).st.map_fd = -1 ∧
    (ion_map_cacheable arm32 negFdScript.kernel st0 3 4096 8192 3 1 0).st.map_fd = -1 ∧
    (ion_share negFdScript.kernel st0 3 4096).st.share_fd = -1 ∧
    ((ion_map arm32 mmapFailScript.kernel st0 3 4096 8192 3 1 0).st.map_fd = 7 ∧
     (ion_map arm32 mmapFailScript.kernel st0 3 4096 8192 3 1 0).st.ptr = 4294967295) ∧
    ((ion_map_cacheable arm32 mmapFailScript.kernel st0 3 4096 8192 3 1 0).st.map_fd = 7 ∧
     (ion_map_cacheable arm32 mmapFailScript.kernel st0 3 4096 8192 3 1 0).st.ptr
       = 4294967295) :=
  have a := failure_atomicity arm32 errPtrScript.kernel st0 3 4096 4096 1 4096 8192 3 1 0
  have b := failure_atomicity arm32 denyScript.kernel st0 3 4096 4096 1 4096 8192 3 1 0
  have c := failure_atomicity arm32 negFdScript.kernel st0 3 4096 4096 1 4096 8192 3 1 0
  have e := failure_atomicity arm32 mmapFailScript.kernel st0 3 4096 4096 1 4096 8192 3 1 0
  ⟨(a.1 (by decide)).1, (b.1 (by decide)).1,
   (c.2.1 (by decide) (by decide)).2.1, (c.2.2.1 (by decide) (by decide)).2.1,
   (c.2.2.2.1 (by decide) (by decide)).2.1,
   e.2.2.2.2.1 (by decide) (by decide) (by decide),
   e.2.2.2.2.2 (by decide) (by decide) (by decide)⟩

end Ion
